import Mathlib

/-!
Shallow embedding of the TradeBot arbitrage detection-and-decision pipeline
(`bot/pairs.py`, `bot/config.py`, `bot/quote_engine.py`, `bot/arbitrage_scanner.py`,
`bot/profit_calculator.py`, `bot/filters/*.py`, `bot/decision.py`, `bot/gas.py`).

Modelling conventions:
* Python `Decimal` / `float` amounts and prices are modelled as `ℚ`.
* Python `int(x)` (truncation towards zero) is `truncRat`.
* External chain/oracle reads are parameters (`QuoteEnv`, `Env`): each read
  yields either a value or a failure; a raised Python exception at a call site
  that the source does not catch is modelled by an `Option`-valued result with
  `none` meaning "the function raised".
* Human-readable reason strings are modelled by inductive reason tags carrying
  the same case distinctions as the source's formatted strings.
* Wall-clock fields (`timestamp`, `detected_at`, `expires_at`, caches keyed by
  time) and the opportunity-id counter are omitted: no claim below depends on
  them, and the price cache is pure read-through for a fixed environment.
-/

namespace TradeBot

/-- Truncation of a rational towards zero, the semantics of Python `int(...)`
applied to a `Decimal`/`float`. -/
def truncRat (q : ℚ) : ℤ :=
  if q < 0 then -(⌊-q⌋) else ⌊q⌋

/-- Token addresses that appear in `bot/pairs.py`; `unknown a` stands for any
address outside the registry. -/
inductive Token where
  | USDC_NATIVE | USDC_LEGACY | USDT | DAI | FRAX | MAI
  | WMATIC | WETH | WBTC
  | LINK | AAVE | CRV | SUSHI | UNI | QUICK
  | STMATIC | MATICX
  | unknown (addr : String)
deriving DecidableEq, Repr

open Token

/-- `TOKENS[addr].symbol`, with `get_symbol` returning "UNKNOWN" for addresses
outside the registry (`bot/pairs.py`). -/
def get_symbol : Token → String
  | .USDC_NATIVE => "USDC"
  | .USDC_LEGACY => "USDC.e"
  | .USDT => "USDT"
  | .DAI => "DAI"
  | .FRAX => "FRAX"
  | .MAI => "MAI"
  | .WMATIC => "WMATIC"
  | .WETH => "WETH"
  | .WBTC => "WBTC"
  | .LINK => "LINK"
  | .AAVE => "AAVE"
  | .CRV => "CRV"
  | .SUSHI => "SUSHI"
  | .UNI => "UNI"
  | .QUICK => "QUICK"
  | .STMATIC => "stMATIC"
  | .MATICX => "MaticX"
  | .unknown _ => "UNKNOWN"

/-- `TOKENS[addr].decimals`, with `get_decimals` defaulting to 18 for unknown
addresses (`bot/pairs.py`). -/
def get_decimals : Token → ℕ
  | .USDC_NATIVE => 6
  | .USDC_LEGACY => 6
  | .USDT => 6
  | .WBTC => 8
  | _ => 18

/-- DEX registry entry; only the fee is relevant to the verified pipeline
(router/factory addresses feed the opaque chain environment). -/
structure DexInfo where
  fee_bps : ℕ
deriving DecidableEq, Repr

/-- The `DEXES` registry of `bot/pairs.py` (name, fee in bps). -/
def DEXES : List (String × DexInfo) :=
  [("quickswap", ⟨30⟩), ("sushiswap", ⟨30⟩), ("apeswap", ⟨20⟩),
   ("dfyn", ⟨30⟩), ("meshswap", ⟨30⟩)]

/-- `list(DEXES.keys())`, the default venue list. -/
def DEXES_keys : List String :=
  DEXES.map Prod.fst

/-- `HIGH_VOLUME_PAIRS` of `bot/pairs.py`. -/
def HIGH_VOLUME_PAIRS : List (Token × Token) :=
  [(WMATIC, USDC_LEGACY), (WMATIC, USDC_NATIVE), (WMATIC, USDT), (WMATIC, WETH), (WMATIC, DAI),
   (WETH, USDC_LEGACY), (WETH, USDC_NATIVE), (WETH, USDT), (WETH, WBTC),
   (USDC_LEGACY, USDT), (USDC_LEGACY, DAI), (USDC_NATIVE, USDT), (DAI, USDT),
   (LINK, WMATIC), (LINK, WETH), (AAVE, WMATIC), (AAVE, WETH),
   (CRV, WMATIC), (SUSHI, WMATIC), (QUICK, WMATIC)]

/-- `SAFE_PAIRS`: the high-volume pairs closed under reversal (`bot/pairs.py`).
The Python value is a `set`; only membership matters, so a list suffices. -/
def SAFE_PAIRS : List (Token × Token) :=
  HIGH_VOLUME_PAIRS ++ HIGH_VOLUME_PAIRS.map (fun p => (p.2, p.1))

/-- `MIN_PROFIT_USD = Decimal("0.05")` (`bot/config.py`). -/
def MIN_PROFIT_USD : ℚ := 5 / 100

/-- `MIN_PROFIT_BPS = 10` (`bot/config.py`). -/
def MIN_PROFIT_BPS : ℤ := 10

/-- `AAVE_FLASH_LOAN_FEE_BPS = 5` (`bot/config.py`). -/
def AAVE_FLASH_LOAN_FEE_BPS : ℤ := 5

/-- `GAS_LIMIT_SWAP = 200_000` (`bot/config.py`). -/
def GAS_LIMIT_SWAP : ℕ := 200000

/-- `GAS_LIMIT_FLASH_LOAN = 500_000` (`bot/config.py`). -/
def GAS_LIMIT_FLASH_LOAN : ℕ := 500000

/-- `GAS_LIMIT_TRIANGULAR = 600_000` (`bot/config.py`). -/
def GAS_LIMIT_TRIANGULAR : ℕ := 600000

/-! ### External oracle / chain environment -/

/-- Outcome of reading one Chainlink aggregator (address → `latestRoundData`
plus `decimals`): `fail` models any raised exception (RPC error, revert),
`ok price stale` a successful read of `answer / 10 ** decimals`, with `stale`
recording whether `updatedAt` is more than the 3600 s staleness bound old. -/
inductive ChainResp where
  | fail
  | ok (price : ℚ) (stale : Bool)

/-- External inputs consumed by the oracle guard and the profit calculator:
`feed` maps a Chainlink feed address to its read outcome and `gasPriceWei`
models `w3.eth.gas_price` (`none` = the call raised). -/
structure Env where
  feed : String → ChainResp
  gasPriceWei : Option ℤ

/-- `_read_chainlink_price` of `bot/filters/oracle_check.py`: raises on a
failed read and on data older than one hour (`none` = raised). -/
def readChainlinkChecked (env : Env) (addr : String) : Option ℚ :=
  match env.feed addr with
  | .fail => none
  | .ok p s => if s then none else some p

/-- The chainlink read inside `ProfitCalculator._get_chainlink_price`
(`bot/profit_calculator.py`): no staleness check, any exception is caught by
the caller (`none` = the read raised). -/
def readChainlinkRaw (env : Env) (addr : String) : Option ℚ :=
  match env.feed addr with
  | .fail => none
  | .ok p _ => some p

/-- `CHAINLINK_FEEDS` of `bot/filters/oracle_check.py` (symbol → feed
address). -/
def CHAINLINK_FEEDS_CHECK : List (String × String) :=
  [("USDC", "0xfE4A8cc5b5B2366C1B58Bea3858e81843581b2F7"),
   ("USDC.e", "0xfE4A8cc5b5B2366C1B58Bea3858e81843581b2F7"),
   ("USDT", "0x0A6513e40db6EB1b165753AD52E80663aeA50545"),
   ("DAI", "0x4746DeC9e833A82EC7C2C1356372CcF2cfcD2F3D"),
   ("WMATIC", "0xAB594600376Ec9fD91F8e885dADF0CE036862dE0"),
   ("WETH", "0xF9680D99D6C9589e2a93a78A04A279e509205945"),
   ("WBTC", "0xc907E116054Ad103354f2D350FD2514433D57F6f"),
   ("LINK", "0xd9FFdb71EbE7496cC440152d43986Aae0AB76665"),
   ("AAVE", "0x72484B12719E23115761D5DA1646945632979bB6"),
   ("CRV", "0x336584C8E6Dc19637A5b36206B1c79923111b405"),
   ("SUSHI", "0x49B0c695039243BBfEb8EcD054EB70061fd54aa0"),
   ("UNI", "0xdf0Fb4e4F928d2dCB76f438575fDD8682386e13C")]

/-- Reasons reported by the oracle guard, one per formatted string in the
source. -/
inductive OracleReason where
  | empty
  | noFeed (sym : String)
  | deviationTooHigh
  | readFailed
deriving DecidableEq, Repr

/-- `OracleResult` of `bot/filters/oracle_check.py`. -/
structure OracleResult where
  ok : Bool
  oracle_price : ℚ
  quoted_price : ℚ
  deviation_pct : ℚ
  reason : OracleReason
deriving DecidableEq, Repr

/-- `oracle_price_guard` of `bot/filters/oracle_check.py`. -/
def oracle_price_guard (env : Env) (base_token quote_token : Token)
    (quoted_price : ℚ) (max_deviation_pct : ℚ) : OracleResult :=
  let base_sym := get_symbol base_token
  let quote_sym := get_symbol quote_token
  match CHAINLINK_FEEDS_CHECK.lookup base_sym with
  | none =>
      ⟨true, 0, quoted_price, 0, .noFeed base_sym⟩
  | some base_addr =>
    match CHAINLINK_FEEDS_CHECK.lookup quote_sym with
    | none =>
        ⟨true, 0, quoted_price, 0, .noFeed quote_sym⟩
    | some quote_addr =>
      match readChainlinkChecked env base_addr, readChainlinkChecked env quote_addr with
      | some base_usd, some quote_usd =>
          let oracle_price := if quote_usd > 0 then base_usd / quote_usd else 0
          let deviation :=
            if oracle_price > 0 then |quoted_price - oracle_price| / oracle_price * 100 else 100
          if deviation > max_deviation_pct then
            ⟨false, oracle_price, quoted_price, deviation, .deviationTooHigh⟩
          else
            ⟨true, oracle_price, quoted_price, deviation, .empty⟩
      | _, _ =>
          ⟨false, 0, quoted_price, 100, .readFailed⟩

/-! ### Profit calculator (`bot/profit_calculator.py`) -/

/-- `CHAINLINK_FEEDS` of `bot/profit_calculator.py` (symbol → feed address). -/
def CHAINLINK_FEEDS_PROFIT : List (String × String) :=
  [("MATIC", "0xAB594600376Ec9fD91F8e885dADF0CE036862dE0"),
   ("ETH", "0xF9680D99D6C9589e2a93a78A04A279e509205945"),
   ("BTC", "0xc907E116054Ad103354f2D350FD2514433D57F6f"),
   ("LINK", "0xd9FFdb71EbE7496cC440152d43986Aae0AB76665"),
   ("USDC", "0xfE4A8cc5b5B2366C1B58Bea3858e81843581b2F7"),
   ("USDT", "0x0A6513e40db6EB1b165753AD52E80663aeA50545"),
   ("DAI", "0x4746DeC9e833A82EC7C2C1356372CcF2cfcD2F3D")]

/-- The `defaults` dictionaries of `_get_chainlink_price`:
`{"MATIC": 0.50, "ETH": 2000, "BTC": 40000}.get(symbol, 1.0)`. -/
def chainlinkDefault (symbol : String) : ℚ :=
  if symbol = "MATIC" then 1 / 2
  else if symbol = "ETH" then 2000
  else if symbol = "BTC" then 40000
  else 1

/-- `ProfitCalculator._get_chainlink_price`: feed value when the read
succeeds, the hardcoded default on a missing feed or a raised read.  The
10-second cache is pure read-through for a fixed environment and is omitted. -/
def get_chainlink_price (env : Env) (symbol : String) : ℚ :=
  match CHAINLINK_FEEDS_PROFIT.lookup symbol with
  | none => chainlinkDefault symbol
  | some addr =>
    match readChainlinkRaw env addr with
    | some p => p
    | none => chainlinkDefault symbol

/-- The `price_map` of `ProfitCalculator.get_token_price_usd` (token →
Chainlink symbol). -/
def price_map (token : Token) : Option String :=
  match token with
  | .WMATIC => some "MATIC"
  | .WETH => some "ETH"
  | .WBTC => some "BTC"
  | .LINK => some "LINK"
  | .USDC_LEGACY => some "USDC"
  | .USDC_NATIVE => some "USDC"
  | .USDT => some "USDT"
  | .DAI => some "DAI"
  | _ => none

/-- `ProfitCalculator.get_token_price_usd`: mapped tokens go through the
oracle (with fallback), unknown tokens price at 0. -/
def get_token_price_usd (env : Env) (token : Token) : ℚ :=
  match price_map token with
  | some symbol => get_chainlink_price env symbol
  | none => 0

/-- `GasCost` of `bot/profit_calculator.py`. -/
structure GasCost where
  gas_units : ℕ
  gas_price_gwei : ℚ
  gas_cost_matic : ℚ
  gas_cost_usd : ℚ
  matic_price_usd : ℚ
deriving DecidableEq, Repr

/-- `ProfitCalculator.estimate_gas_cost`: `gas_price_gwei = None` falls back
to the network gas price, or 50 gwei if that read raises. -/
def estimate_gas_cost (env : Env) (gas_units : ℕ) (gas_price_gwei : Option ℚ) : GasCost :=
  let gwei :=
    match gas_price_gwei with
    | some g => g
    | none =>
      match env.gasPriceWei with
      | some w => (w : ℚ) / 10 ^ 9
      | none => 50
  let gas_cost_matic := (gas_units : ℚ) * gwei / 10 ^ 9
  let matic_price := get_chainlink_price env "MATIC"
  let gas_cost_usd := gas_cost_matic * matic_price
  ⟨gas_units, gwei, gas_cost_matic, gas_cost_usd, matic_price⟩

/-- Which threshold a not-profitable breakdown's `reason` string names. -/
inductive ProfitReason where
  | empty
  | belowMinUsd
  | belowMinBps
deriving DecidableEq, Repr

/-- `ProfitBreakdown` of `bot/profit_calculator.py` (`calculated_at` omitted). -/
structure ProfitBreakdown where
  trade_amount : ℚ
  trade_amount_usd : ℚ
  gross_return : ℚ
  gross_profit : ℚ
  gross_profit_bps : ℤ
  dex_fee_total : ℚ
  flash_loan_fee : ℚ
  gas_cost : GasCost
  slippage_estimate : ℚ
  total_costs : ℚ
  total_costs_usd : ℚ
  net_profit : ℚ
  net_profit_usd : ℚ
  net_profit_bps : ℤ
  is_profitable : Bool
  reason : ProfitReason
deriving DecidableEq, Repr

/-- `DirectArbOpportunity` of `bot/arbitrage_scanner.py`
(id and timestamps omitted). -/
structure DirectArbOpportunity where
  token_a : Token
  token_b : Token
  amount_in : ℚ
  buy_dex : String
  buy_amount_out : ℚ
  buy_price : ℚ
  sell_dex : String
  sell_amount_out : ℚ
  sell_price : ℚ
  gross_profit : ℚ
  gross_profit_bps : ℤ
deriving DecidableEq, Repr

/-- `TriangularArbOpportunity` of `bot/arbitrage_scanner.py`
(id and timestamps omitted). -/
structure TriangularArbOpportunity where
  token_a : Token
  token_b : Token
  token_c : Token
  amount_in : ℚ
  leg1_dex : String
  leg1_amount_out : ℚ
  leg1_price : ℚ
  leg2_dex : String
  leg2_amount_out : ℚ
  leg2_price : ℚ
  leg3_dex : String
  leg3_amount_out : ℚ
  leg3_price : ℚ
  final_amount : ℚ
  gross_profit : ℚ
  gross_profit_bps : ℤ
deriving DecidableEq, Repr

/-- `ProfitCalculator.calculate_direct_arb_profit`. -/
def calculate_direct_arb_profit (env : Env) (opportunity : DirectArbOpportunity)
    (use_flash_loan : Bool) (flash_loan_fee_bps : ℤ) (slippage_bps : ℤ)
    (gas_price_gwei : Option ℚ) : ProfitBreakdown :=
  let token_a_price_usd := get_token_price_usd env opportunity.token_a
  let trade_amount_usd := opportunity.amount_in * token_a_price_usd
  let gross_return := opportunity.sell_amount_out
  let gross_profit := gross_return - opportunity.amount_in
  let gross_profit_bps :=
    if opportunity.amount_in > 0 then truncRat (gross_profit / opportunity.amount_in * 10000) else 0
  let buy_fee_bps := ((DEXES.lookup opportunity.buy_dex).map DexInfo.fee_bps).getD 30
  let sell_fee_bps := ((DEXES.lookup opportunity.sell_dex).map DexInfo.fee_bps).getD 30
  let dex_fee_total := opportunity.amount_in * ((buy_fee_bps : ℚ) + (sell_fee_bps : ℚ)) / 10000
  let flash_loan_fee :=
    if use_flash_loan then opportunity.amount_in * (flash_loan_fee_bps : ℚ) / 10000 else 0
  let gas_units := if use_flash_loan then GAS_LIMIT_FLASH_LOAN else GAS_LIMIT_SWAP * 2
  let gas_cost := estimate_gas_cost env gas_units gas_price_gwei
  let gas_cost_in_token :=
    if token_a_price_usd > 0 then gas_cost.gas_cost_usd / token_a_price_usd else 0
  let slippage_estimate := opportunity.amount_in * (slippage_bps : ℚ) / 10000
  let total_costs := flash_loan_fee + gas_cost_in_token + slippage_estimate
  let total_costs_usd := total_costs * token_a_price_usd
  let net_profit := gross_profit - total_costs
  let net_profit_usd := net_profit * token_a_price_usd
  let net_profit_bps :=
    if opportunity.amount_in > 0 then truncRat (net_profit / opportunity.amount_in * 10000) else 0
  let is_profitable :=
    decide (net_profit_usd ≥ MIN_PROFIT_USD) && decide (net_profit_bps ≥ MIN_PROFIT_BPS)
  let reason :=
    if is_profitable then ProfitReason.empty
    else if net_profit_usd < MIN_PROFIT_USD then ProfitReason.belowMinUsd
    else if net_profit_bps < MIN_PROFIT_BPS then ProfitReason.belowMinBps
    else ProfitReason.empty
  ⟨opportunity.amount_in, trade_amount_usd, gross_return, gross_profit, gross_profit_bps,
   dex_fee_total, flash_loan_fee, gas_cost, slippage_estimate, total_costs, total_costs_usd,
   net_profit, net_profit_usd, net_profit_bps, is_profitable, reason⟩

/-- `ProfitCalculator.calculate_triangular_arb_profit`. -/
def calculate_triangular_arb_profit (env : Env) (opportunity : TriangularArbOpportunity)
    (use_flash_loan : Bool) (flash_loan_fee_bps : ℤ) (slippage_bps : ℤ)
    (gas_price_gwei : Option ℚ) : ProfitBreakdown :=
  let token_a_price_usd := get_token_price_usd env opportunity.token_a
  let trade_amount_usd := opportunity.amount_in * token_a_price_usd
  let gross_return := opportunity.final_amount
  let gross_profit := gross_return - opportunity.amount_in
  let gross_profit_bps :=
    if opportunity.amount_in > 0 then truncRat (gross_profit / opportunity.amount_in * 10000) else 0
  let leg1_fee_bps := ((DEXES.lookup opportunity.leg1_dex).map DexInfo.fee_bps).getD 30
  let leg2_fee_bps := ((DEXES.lookup opportunity.leg2_dex).map DexInfo.fee_bps).getD 30
  let leg3_fee_bps := ((DEXES.lookup opportunity.leg3_dex).map DexInfo.fee_bps).getD 30
  let dex_fee_total :=
    opportunity.amount_in * ((leg1_fee_bps : ℚ) + (leg2_fee_bps : ℚ) + (leg3_fee_bps : ℚ)) / 10000
  let flash_loan_fee :=
    if use_flash_loan then opportunity.amount_in * (flash_loan_fee_bps : ℚ) / 10000 else 0
  let gas_units := if use_flash_loan then GAS_LIMIT_TRIANGULAR else GAS_LIMIT_SWAP * 3
  let gas_cost := estimate_gas_cost env gas_units gas_price_gwei
  let gas_cost_in_token :=
    if token_a_price_usd > 0 then gas_cost.gas_cost_usd / token_a_price_usd else 0
  let slippage_estimate := opportunity.amount_in * (slippage_bps : ℚ) / 10000
  let total_costs := flash_loan_fee + gas_cost_in_token + slippage_estimate
  let total_costs_usd := total_costs * token_a_price_usd
  let net_profit := gross_profit - total_costs
  let net_profit_usd := net_profit * token_a_price_usd
  let net_profit_bps :=
    if opportunity.amount_in > 0 then truncRat (net_profit / opportunity.amount_in * 10000) else 0
  let is_profitable :=
    decide (net_profit_usd ≥ MIN_PROFIT_USD) && decide (net_profit_bps ≥ MIN_PROFIT_BPS)
  let reason :=
    if is_profitable then ProfitReason.empty
    else if net_profit_usd < MIN_PROFIT_USD then ProfitReason.belowMinUsd
    else if net_profit_bps < MIN_PROFIT_BPS then ProfitReason.belowMinBps
    else ProfitReason.empty
  ⟨opportunity.amount_in, trade_amount_usd, gross_return, gross_profit, gross_profit_bps,
   dex_fee_total, flash_loan_fee, gas_cost, slippage_estimate, total_costs, total_costs_usd,
   net_profit, net_profit_usd, net_profit_bps, is_profitable, reason⟩

/-! ### Quote engine (`bot/quote_engine.py`) -/

/-- Chain response to `router.getAmountsOut(amount_in_wei, [token_in,
token_out])` on one venue: `some amount_out_wei` for a successful call (a
`uint256`, hence `ℕ`), `none` when the call raises.  Each venue call is
independent, so the environment is just this function. -/
def QuoteEnv : Type :=
  String → Token → Token → ℤ → Option ℕ

/-- `Quote` of `bot/quote_engine.py` (timestamp and error string omitted). -/
structure Quote where
  dex : String
  token_in : Token
  token_out : Token
  amount_in : ℚ
  amount_out : ℚ
  price : ℚ
  fee_bps : ℕ
  is_valid : Bool
deriving DecidableEq, Repr

/-- `QuoteEngine.get_quote`: a failed router call is captured as an invalid
quote, never an exception. -/
def get_quote (qenv : QuoteEnv) (dex_name : String) (token_in token_out : Token)
    (amount_in : ℚ) : Quote :=
  match DEXES.lookup dex_name with
  | none => ⟨dex_name, token_in, token_out, amount_in, 0, 0, 0, false⟩
  | some dex_info =>
    let dec_in := get_decimals token_in
    let dec_out := get_decimals token_out
    let amount_in_wei := truncRat (amount_in * 10 ^ dec_in)
    match qenv dex_name token_in token_out amount_in_wei with
    | none => ⟨dex_name, token_in, token_out, amount_in, 0, 0, dex_info.fee_bps, false⟩
    | some amount_out_wei =>
      let amount_out := (amount_out_wei : ℚ) / 10 ^ dec_out
      let price := if amount_in > 0 then amount_out / amount_in else 0
      ⟨dex_name, token_in, token_out, amount_in, amount_out, price, dex_info.fee_bps, true⟩

/-- `AggregatedQuotes` of `bot/quote_engine.py` (timestamp omitted; the
venue→quote dict is an association list). -/
structure AggregatedQuotes where
  token_in : Token
  token_out : Token
  amount_in : ℚ
  quotes : List (String × Quote)
  best_quote : Option Quote
  worst_quote : Option Quote
  spread_bps : ℤ
deriving DecidableEq, Repr

/-- Python `max(valid_quotes, key=lambda q: q.amount_out)`: the first quote
with maximal `amount_out`. -/
def maxByAmountOut (q : Quote) (l : List Quote) : Quote :=
  l.foldl (fun b x => if x.amount_out > b.amount_out then x else b) q

/-- Python `min(valid_quotes, key=lambda q: q.amount_out)`: the first quote
with minimal `amount_out`. -/
def minByAmountOut (q : Quote) (l : List Quote) : Quote :=
  l.foldl (fun b x => if x.amount_out < b.amount_out then x else b) q

/-- The spread computation of `QuoteEngine.aggregate_quotes`:
`int((best.price - worst.price) / mid_price * 10000)` when the mid price is
positive, else 0. -/
def spreadFormula (best_price worst_price : ℚ) : ℤ :=
  let mid_price := (best_price + worst_price) / 2
  if mid_price > 0 then truncRat ((best_price - worst_price) / mid_price * 10000) else 0

/-- `QuoteEngine.aggregate_quotes`: fetch a quote per venue, keep the valid
ones, derive best/worst/spread.  The Python dict dedups venue names and the
merge order under `as_completed` is nondeterministic; quotes are
deterministic per venue here, so only the (immaterial) tie-breaking order of
`dex_list.dedup` differs. -/
def aggregate_quotes (qenv : QuoteEnv) (token_in token_out : Token) (amount_in : ℚ)
    (dex_list : List String) : AggregatedQuotes :=
  let quotes := dex_list.dedup.filterMap (fun d =>
    let q := get_quote qenv d token_in token_out amount_in
    if q.is_valid then some (d, q) else none)
  match quotes with
  | [] => ⟨token_in, token_out, amount_in, [], none, none, 0⟩
  | (d0, q0) :: rest =>
    let best := maxByAmountOut q0 (rest.map Prod.snd)
    let worst := minByAmountOut q0 (rest.map Prod.snd)
    ⟨token_in, token_out, amount_in, (d0, q0) :: rest, some best, some worst,
     spreadFormula best.price worst.price⟩

/-! ### Arbitrage scanner (`bot/arbitrage_scanner.py`)

The scanners below return `Option (Option _)`: the outer `none` models an
uncaught Python exception (the only one reachable is the `Decimal` division
by zero in the `gross_profit_bps` computation when `amount_in == 0`), the
inner `Option` is the source's `Optional[...]` return value. -/

/-- The (buy venue, buy quote) × (sell venue) combinations enumerated by the
two nested loops of `scan_direct_arbitrage`, in loop order. -/
def directCombos (qs : List (String × Quote)) : List ((String × Quote) × String) :=
  qs.flatMap (fun bq => ((qs.map Prod.fst).filter (fun s => s ≠ bq.1)).map (fun s => (bq, s)))

/-- The loop body of `scan_direct_arbitrage`, threading the running best
`(best_profit, best_opp)` state through the combinations. -/
def scanDirectFold (qenv : QuoteEnv) (min_profit_bps : ℤ) (token_a token_b : Token)
    (amount_in : ℚ) :
    List ((String × Quote) × String) → ℚ × Option DirectArbOpportunity →
    Option (ℚ × Option DirectArbOpportunity)
  | [], st => some st
  | (⟨buy_dex, buy_quote⟩, sell_dex) :: rest, st =>
    if ¬ buy_quote.is_valid then
      scanDirectFold qenv min_profit_bps token_a token_b amount_in rest st
    else
      let sell_quote := get_quote qenv sell_dex token_b token_a buy_quote.amount_out
      if ¬ sell_quote.is_valid then
        scanDirectFold qenv min_profit_bps token_a token_b amount_in rest st
      else
        let final_amount := sell_quote.amount_out
        let gross_profit := final_amount - amount_in
        if gross_profit ≤ 0 then
          scanDirectFold qenv min_profit_bps token_a token_b amount_in rest st
        else if amount_in = 0 then
          none
        else
          let gross_profit_bps := truncRat (gross_profit / amount_in * 10000)
          if gross_profit_bps < min_profit_bps then
            scanDirectFold qenv min_profit_bps token_a token_b amount_in rest st
          else if gross_profit > st.1 then
            scanDirectFold qenv min_profit_bps token_a token_b amount_in rest
              (gross_profit, some
                ⟨token_a, token_b, amount_in, buy_dex, buy_quote.amount_out, buy_quote.price,
                 sell_dex, sell_quote.amount_out, sell_quote.price, gross_profit,
                 gross_profit_bps⟩)
          else
            scanDirectFold qenv min_profit_bps token_a token_b amount_in rest st

/-- `ArbitrageScanner.scan_direct_arbitrage`. -/
def scan_direct_arbitrage (qenv : QuoteEnv) (min_profit_bps : ℤ) (token_a token_b : Token)
    (amount_in : ℚ) (dex_list : List String) : Option (Option DirectArbOpportunity) :=
  let forward_quotes := aggregate_quotes qenv token_a token_b amount_in dex_list
  if forward_quotes.quotes.length < 2 then some none
  else
    (scanDirectFold qenv min_profit_bps token_a token_b amount_in
      (directCombos forward_quotes.quotes) (0, none)).map Prod.snd

/-- The venue triples enumerated by the three nested loops of
`scan_triangular_arbitrage`, in loop order. -/
def triCombos (dex_list : List String) : List (String × String × String) :=
  dex_list.flatMap (fun d1 => dex_list.flatMap (fun d2 => dex_list.map (fun d3 => (d1, d2, d3))))

/-- The loop body of `scan_triangular_arbitrage`.  The source fetches `quote1`
once per outer iteration and `quote2` once per middle iteration; re-fetching
them per triple is identical because quotes are deterministic per venue. -/
def scanTriFold (qenv : QuoteEnv) (min_profit_bps : ℤ) (token_a token_b token_c : Token)
    (amount_in : ℚ) :
    List (String × String × String) → ℚ × Option TriangularArbOpportunity →
    Option (ℚ × Option TriangularArbOpportunity)
  | [], st => some st
  | (d1, d2, d3) :: rest, st =>
    let quote1 := get_quote qenv d1 token_a token_b amount_in
    if ¬ quote1.is_valid ∨ quote1.amount_out ≤ 0 then
      scanTriFold qenv min_profit_bps token_a token_b token_c amount_in rest st
    else
      let quote2 := get_quote qenv d2 token_b token_c quote1.amount_out
      if ¬ quote2.is_valid ∨ quote2.amount_out ≤ 0 then
        scanTriFold qenv min_profit_bps token_a token_b token_c amount_in rest st
      else
        let quote3 := get_quote qenv d3 token_c token_a quote2.amount_out
        if ¬ quote3.is_valid ∨ quote3.amount_out ≤ 0 then
          scanTriFold qenv min_profit_bps token_a token_b token_c amount_in rest st
        else
          let final_amount := quote3.amount_out
          let gross_profit := final_amount - amount_in
          if gross_profit ≤ 0 then
            scanTriFold qenv min_profit_bps token_a token_b token_c amount_in rest st
          else if amount_in = 0 then
            none
          else
            let gross_profit_bps := truncRat (gross_profit / amount_in * 10000)
            if gross_profit_bps < min_profit_bps then
              scanTriFold qenv min_profit_bps token_a token_b token_c amount_in rest st
            else if gross_profit > st.1 then
              scanTriFold qenv min_profit_bps token_a token_b token_c amount_in rest
                (gross_profit, some
                  ⟨token_a, token_b, token_c, amount_in,
                   d1, quote1.amount_out, quote1.price,
                   d2, quote2.amount_out, quote2.price,
                   d3, quote3.amount_out, quote3.price,
                   final_amount, gross_profit, gross_profit_bps⟩)
            else
              scanTriFold qenv min_profit_bps token_a token_b token_c amount_in rest st

/-- `ArbitrageScanner.scan_triangular_arbitrage`. -/
def scan_triangular_arbitrage (qenv : QuoteEnv) (min_profit_bps : ℤ)
    (token_a token_b token_c : Token) (amount_in : ℚ) (dex_list : List String) :
    Option (Option TriangularArbOpportunity) :=
  (scanTriFold qenv min_profit_bps token_a token_b token_c amount_in
    (triCombos dex_list) (0, none)).map Prod.snd

/-- Stable insertion used to model Python `sorted(key=bps, reverse=True)` for
direct opportunities (under `List.foldr`, equal-bps entries keep their
original relative order, as CPython's stable sort does). -/
def insertByBpsDesc (o : DirectArbOpportunity) :
    List DirectArbOpportunity → List DirectArbOpportunity
  | [] => [o]
  | x :: xs => if o.gross_profit_bps < x.gross_profit_bps then x :: insertByBpsDesc o xs
               else o :: x :: xs

/-- Descending-by-bps sort of collected direct opportunities. -/
def sortByBpsDesc (l : List DirectArbOpportunity) : List DirectArbOpportunity :=
  l.foldr insertByBpsDesc []

/-- `ArbitrageScanner.scan_all_pairs`: per-pair scan with the default venue
list; a pair whose scan raises is logged and skipped, a pair without an
opportunity contributes nothing, and the collected list is sorted by bps. -/
def scan_all_pairs (qenv : QuoteEnv) (min_profit_bps : ℤ) (amount_in : ℚ)
    (pairs : List (Token × Token)) : List DirectArbOpportunity :=
  sortByBpsDesc (pairs.filterMap (fun p =>
    match scan_direct_arbitrage qenv min_profit_bps p.1 p.2 amount_in DEXES_keys with
    | some (some opp) => some opp
    | _ => none))

/-- `TRIANGULAR_ROUTES` of `bot/pairs.py` (start, intermediate, second
intermediate; the cycle ends back at the start token). -/
def TRIANGULAR_ROUTES : List (Token × Token × Token) :=
  [(USDC_LEGACY, WMATIC, WETH), (USDC_NATIVE, WMATIC, WETH),
   (USDC_LEGACY, WETH, WMATIC), (USDC_NATIVE, WETH, WMATIC),
   (USDC_LEGACY, WMATIC, LINK), (USDC_LEGACY, WETH, WBTC),
   (WMATIC, WETH, LINK), (WMATIC, USDC_LEGACY, WETH),
   (DAI, USDC_LEGACY, WMATIC)]

/-- Stable insertion used to model Python `sorted(key=bps, reverse=True)` for
triangular opportunities. -/
def insertByBpsDescTri (o : TriangularArbOpportunity) :
    List TriangularArbOpportunity → List TriangularArbOpportunity
  | [] => [o]
  | x :: xs => if o.gross_profit_bps < x.gross_profit_bps then x :: insertByBpsDescTri o xs
               else o :: x :: xs

/-- Descending-by-bps sort of collected triangular opportunities. -/
def sortByBpsDescTri (l : List TriangularArbOpportunity) : List TriangularArbOpportunity :=
  l.foldr insertByBpsDescTri []

/-- `ArbitrageScanner.scan_all_triangular`: per-route scan with the default
venue list; a route whose scan raises is logged and skipped, a route without
an opportunity contributes nothing, and the collected list is sorted by
bps.  The default `routes` argument is `TRIANGULAR_ROUTES`. -/
def scan_all_triangular (qenv : QuoteEnv) (min_profit_bps : ℤ) (amount_in : ℚ)
    (routes : List (Token × Token × Token)) : List TriangularArbOpportunity :=
  sortByBpsDescTri (routes.filterMap (fun r =>
    match scan_triangular_arbitrage qenv min_profit_bps r.1 r.2.1 r.2.2 amount_in
        DEXES_keys with
    | some (some opp) => some opp
    | _ => none))

/-- `FastArbitrageScanner._scan_single_pair` (outer `none` = raised
exception, as for the other scanners). -/
def scan_single_pair (qenv : QuoteEnv) (min_profit_bps : ℤ) (token_a token_b : Token)
    (amount_in : ℚ) : Option (Option DirectArbOpportunity) :=
  let forward := aggregate_quotes qenv token_a token_b amount_in DEXES_keys
  match forward.best_quote, forward.worst_quote with
  | some best_buy, some worst_buy =>
    if forward.spread_bps < min_profit_bps then some none
    else
      let sell_quote := get_quote qenv worst_buy.dex token_b token_a best_buy.amount_out
      if ¬ sell_quote.is_valid then some none
      else
        let final_amount := sell_quote.amount_out
        let gross_profit := final_amount - amount_in
        if gross_profit ≤ 0 then some none
        else if amount_in = 0 then none
        else
          let gross_profit_bps := truncRat (gross_profit / amount_in * 10000)
          if gross_profit_bps < min_profit_bps then some none
          else some (some
            ⟨token_a, token_b, amount_in, best_buy.dex, best_buy.amount_out, best_buy.price,
             sell_quote.dex, sell_quote.amount_out, sell_quote.price, gross_profit,
             gross_profit_bps⟩)
  | _, _ => some none

/-! ### Guard chain (`bot/filters/*.py`, `bot/gas.py`, `bot/decision.py`) -/

/-- Reason tag of `LiquidityResult.reason`. -/
inductive LiquidityReason where
  | empty
  | zeroLiquidity
  | impactTooHigh
deriving DecidableEq, Repr

/-- `LiquidityResult` of `bot/filters/liquidity_check.py`. -/
structure LiquidityResult where
  ok : Bool
  reserve_in : ℚ
  trade_size : ℚ
  price_impact_pct : ℚ
  reason : LiquidityReason
deriving DecidableEq, Repr

/-- `liquidity_guard` of `bot/filters/liquidity_check.py`. -/
def liquidity_guard (reserve_in trade_size max_impact_pct : ℚ) : LiquidityResult :=
  if reserve_in ≤ 0 then
    ⟨false, reserve_in, trade_size, 100, .zeroLiquidity⟩
  else
    let impact_pct := trade_size / reserve_in * 100
    if impact_pct > max_impact_pct then
      ⟨false, reserve_in, trade_size, impact_pct, .impactTooHigh⟩
    else
      ⟨true, reserve_in, trade_size, impact_pct, .empty⟩

/-- Reason tag of `DexConsistencyResult.reason`. -/
inductive DexReason where
  | empty
  | notEnoughQuotes
  | spreadTooHigh
deriving DecidableEq, Repr

/-- `DexConsistencyResult` of `bot/filters/dex_consistency.py` (the echoed
price dict is omitted). -/
structure DexConsistencyResult where
  ok : Bool
  spread_pct : ℚ
  reason : DexReason
deriving DecidableEq, Repr

/-- Python `max(values)` for a nonempty list (first maximum); 0 is never
reached on the call sites, which guard against emptiness. -/
def listMax : List ℚ → ℚ
  | [] => 0
  | x :: xs => xs.foldl max x

/-- Python `min(values)` for a nonempty list (first minimum). -/
def listMin : List ℚ → ℚ
  | [] => 0
  | x :: xs => xs.foldl min x

/-- `dex_consistency_guard` of `bot/filters/dex_consistency.py`; the result
is `none` when `(p_max - p_min) / p_mid` raises because the mean price is
zero. -/
def dex_consistency_guard (dex_prices : List ℚ) (max_spread_pct : ℚ) :
    Option DexConsistencyResult :=
  if dex_prices.length < 2 then
    some ⟨false, 100, .notEnoughQuotes⟩
  else
    let p_max := listMax dex_prices
    let p_min := listMin dex_prices
    let p_mid := dex_prices.sum / dex_prices.length
    if p_mid = 0 then none
    else
      let spread_pct := (p_max - p_min) / p_mid * 100
      if spread_pct > max_spread_pct then
        some ⟨false, spread_pct, .spreadTooHigh⟩
      else
        some ⟨true, spread_pct, .empty⟩

/-- Reason tag of `ProfitResult.reason` (`bot/filters/profit_check.py`). -/
inductive ProfitGuardReason where
  | empty
  | belowUsd
  | belowPct
deriving DecidableEq, Repr

/-- `ProfitResult` of `bot/filters/profit_check.py`. -/
structure ProfitResult where
  ok : Bool
  gross_profit_usd : ℚ
  gas_cost_usd : ℚ
  net_profit_usd : ℚ
  net_profit_pct : ℚ
  reason : ProfitGuardReason
deriving DecidableEq, Repr

/-- `profit_guard` of `bot/filters/profit_check.py`; `none` when
`sell_price / buy_price` or `net_profit / trade_size_usd` raises (zero
denominator). -/
def profit_guard (trade_size_usd buy_price sell_price gas_cost_usd dex_fee_pct
    min_profit_usd min_profit_pct : ℚ) : Option ProfitResult :=
  if buy_price = 0 then none
  else
    let gross_return := trade_size_usd * (sell_price / buy_price)
    let fee_cost := trade_size_usd * (dex_fee_pct / 100) * 2
    let gross_profit := gross_return - trade_size_usd - fee_cost
    let net_profit := gross_profit - gas_cost_usd
    if trade_size_usd = 0 then none
    else
      let net_profit_pct := net_profit / trade_size_usd * 100
      if net_profit < min_profit_usd then
        some ⟨false, gross_profit, gas_cost_usd, net_profit, net_profit_pct, .belowUsd⟩
      else if net_profit_pct < min_profit_pct then
        some ⟨false, gross_profit, gas_cost_usd, net_profit, net_profit_pct, .belowPct⟩
      else
        some ⟨true, gross_profit, gas_cost_usd, net_profit, net_profit_pct, .empty⟩

/-- `estimate_gas_cost_usd` of `bot/gas.py` (its own `GAS_LIMIT_SWAP` is
180 000, distinct from the config constant). -/
def estimate_gas_cost_usd (gas_price_gwei matic_price_usd : ℚ)
    (include_approval : Bool) : ℚ :=
  let gas_units : ℕ := if include_approval then 180000 + 50000 else 180000
  let gas_cost_matic := (gas_units : ℚ) * gas_price_gwei * (1 / 10 ^ 9)
  gas_cost_matic * matic_price_usd

/-- Ascending insertion sort on rationals, Python `sorted(values)`. -/
def insertAsc (x : ℚ) : List ℚ → List ℚ
  | [] => [x]
  | y :: ys => if x ≤ y then x :: y :: ys else y :: insertAsc x ys

/-- Ascending sort used by `statistics.median`. -/
def sortAsc (l : List ℚ) : List ℚ :=
  l.foldr insertAsc []

/-- Python `statistics.median`: `none` on empty data (raises
`StatisticsError`), middle element for odd length, mean of the two middle
elements for even length. -/
def medianOpt (l : List ℚ) : Option ℚ :=
  let s := sortAsc l
  let n := s.length
  if n = 0 then none
  else if n % 2 = 1 then some (s.getD (n / 2) 0)
  else some ((s.getD (n / 2 - 1) 0 + s.getD (n / 2) 0) / 2)

/-- The gas-price block of `evaluate_trade`: `w3.eth.gas_price / 10**9`,
falling back to 50 gwei when the read raises. -/
def decisionGasGwei (env : Env) : ℚ :=
  match env.gasPriceWei with
  | some w => (w : ℚ) / 10 ^ 9
  | none => 50

/-- The guard stages of `evaluate_trade`, in source order. -/
inductive GuardId where
  | whitelist
  | oracle
  | liquidity
  | dexConsistency
  | profit
deriving DecidableEq, Repr

/-- Consolidated `Decision.reason` of `bot/decision.py`, one tag per
formatted reason string, carrying the failing guard's own reason. -/
inductive DecisionReason where
  | notWhitelisted
  | oracleGuardFailed (r : OracleReason)
  | liquidityGuardFailed (r : LiquidityReason)
  | dexConsistencyFailed (r : DexReason)
  | profitGuardFailed (r : ProfitGuardReason)
  | allPassed
deriving DecidableEq, Repr

/-- `Decision` of `bot/decision.py` (the `details` dict echoes guard fields
already carried by the per-guard results and is omitted). -/
structure Decision where
  allowed : Bool
  reason : DecisionReason
deriving DecidableEq, Repr

/-- `evaluate_trade` of `bot/decision.py`, instrumented with the list of
guard stages entered, in order.  The first component is `none` when the
Python function raises (empty `dex_prices` at the `median` call, a zero mean
price inside the consistency guard, or a zero buy price / trade size inside
the profit guard). -/
def evaluate_trade (env : Env) (base_token quote_token : Token) (trade_size : ℚ)
    (dex_prices : List (String × ℚ)) (reserve_in : ℚ) (skip_whitelist : Bool) :
    Option Decision × List GuardId :=
  if ¬ skip_whitelist ∧ (base_token, quote_token) ∉ SAFE_PAIRS then
    (some ⟨false, .notWhitelisted⟩, [.whitelist])
  else
    let values := dex_prices.map Prod.snd
    match medianOpt values with
    | none => (none, [.whitelist])
    | some representative_price =>
      let oracle := oracle_price_guard env base_token quote_token representative_price 5
      if ¬ oracle.ok then
        (some ⟨false, .oracleGuardFailed oracle.reason⟩, [.whitelist, .oracle])
      else
        let liquidity := liquidity_guard reserve_in trade_size 1
        if ¬ liquidity.ok then
          (some ⟨false, .liquidityGuardFailed liquidity.reason⟩,
           [.whitelist, .oracle, .liquidity])
        else
          match dex_consistency_guard values 3 with
          | none => (none, [.whitelist, .oracle, .liquidity, .dexConsistency])
          | some dex_check =>
            if ¬ dex_check.ok then
              (some ⟨false, .dexConsistencyFailed dex_check.reason⟩,
               [.whitelist, .oracle, .liquidity, .dexConsistency])
            else
              let buy_price := listMin values
              let sell_price := listMax values
              let gas_price_gwei := decisionGasGwei env
              let matic_price_usd : ℚ := 1 / 2
              let gas_cost_usd := estimate_gas_cost_usd gas_price_gwei matic_price_usd false
              match profit_guard trade_size buy_price sell_price gas_cost_usd (3 / 10)
                  (5 / 100) (1 / 10) with
              | none =>
                  (none, [.whitelist, .oracle, .liquidity, .dexConsistency, .profit])
              | some profit =>
                if ¬ profit.ok then
                  (some ⟨false, .profitGuardFailed profit.reason⟩,
                   [.whitelist, .oracle, .liquidity, .dexConsistency, .profit])
                else
                  (some ⟨true, .allPassed⟩,
                   [.whitelist, .oracle, .liquidity, .dexConsistency, .profit])

/-! ### Concrete environments used by witnesses and counterexamples -/

/-- An environment in which every oracle read and the gas-price read raise. -/
def envAllFail : Env :=
  ⟨fun _ => .fail, none⟩

/-! ### C1: oracle guard on unavailable/stale oracle data -/

/-- C1 (counterexample): the claim "for every pair whose oracle price is
unavailable or stale for either token (no feed, read failure, or stale data)
the guard returns ok = true" is false: for WMATIC/USDC.e both feeds exist,
and when the reads fail the guard returns ok = false. -/
theorem C1_counterexample :
    (oracle_price_guard envAllFail .WMATIC .USDC_LEGACY 1 5).ok = false := by
  rfl

/-- C1 (amended): the guard passes vacuously exactly in the no-feed case: if
either token's symbol has no Chainlink feed configured, ok = true; but if
both feeds are configured and either read fails or is stale, the guard
rejects with ok = false and the read-failure reason. -/
theorem C1_corrected_thm (env : Env) (base_token quote_token : Token)
    (quoted_price max_deviation_pct : ℚ) :
    ((CHAINLINK_FEEDS_CHECK.lookup (get_symbol base_token) = none ∨
      CHAINLINK_FEEDS_CHECK.lookup (get_symbol quote_token) = none) →
      (oracle_price_guard env base_token quote_token quoted_price max_deviation_pct).ok = true) ∧
    (∀ base_addr quote_addr,
      CHAINLINK_FEEDS_CHECK.lookup (get_symbol base_token) = some base_addr →
      CHAINLINK_FEEDS_CHECK.lookup (get_symbol quote_token) = some quote_addr →
      (readChainlinkChecked env base_addr = none ∨
       readChainlinkChecked env quote_addr = none) →
      (oracle_price_guard env base_token quote_token quoted_price max_deviation_pct).ok = false ∧
      (oracle_price_guard env base_token quote_token quoted_price
        max_deviation_pct).reason = .readFailed) := by
  constructor
  · intro h
    rcases hb : CHAINLINK_FEEDS_CHECK.lookup (get_symbol base_token) with _ | ab
    · simp [oracle_price_guard, hb]
    · rcases hq : CHAINLINK_FEEDS_CHECK.lookup (get_symbol quote_token) with _ | aq
      · simp [oracle_price_guard, hb, hq]
      · rcases h with h | h
        · rw [hb] at h; cases h
        · rw [hq] at h; cases h
  · intro base_addr quote_addr hb hq hfail
    rcases hrb : readChainlinkChecked env base_addr with _ | pb
    · simp [oracle_price_guard, hb, hq, hrb]
    · rcases hrq : readChainlinkChecked env quote_addr with _ | pq
      · simp [oracle_price_guard, hb, hq, hrb, hrq]
      · rcases hfail with h | h
        · rw [hrb] at h; cases h
        · rw [hrq] at h; cases h

/-- C1 witness: the QUICK symbol has no Chainlink feed, so for the pair
QUICK/WETH the guard passes vacuously even when every read fails. -/
theorem C1_witness :
    (oracle_price_guard envAllFail .QUICK .WETH 2 5).ok = true :=
  (C1_corrected_thm envAllFail .QUICK .WETH 2 5).1 (Or.inl (by decide))

/-! ### C2: profit model falls back to default prices on oracle failure -/

/-- C2: for every token the profit model prices through its symbol map, when
every oracle read raises the USD price lookup returns the hardcoded
conservative default for that symbol (a positive constant, never an
exception), and the profit evaluation still completes, pricing the trade
with the fallback. -/
theorem C2_thm (env : Env) (token : Token) (symbol : String)
    (hmap : price_map token = some symbol)
    (hfail : ∀ addr, readChainlinkRaw env addr = none) :
    get_token_price_usd env token = chainlinkDefault symbol ∧
    0 < chainlinkDefault symbol ∧
    ∀ (opp : DirectArbOpportunity) (use_flash_loan : Bool) (flash_bps slip_bps : ℤ)
      (gas_gwei : Option ℚ), opp.token_a = token →
      (calculate_direct_arb_profit env opp use_flash_loan flash_bps slip_bps
        gas_gwei).trade_amount_usd = opp.amount_in * chainlinkDefault symbol := by
  have hprice : get_token_price_usd env token = chainlinkDefault symbol := by
    unfold get_token_price_usd get_chainlink_price
    rw [hmap]
    rcases hfeed : CHAINLINK_FEEDS_PROFIT.lookup symbol with _ | addr
    · simp [hfeed]
    · simp [hfeed, hfail addr]
  refine ⟨hprice, ?_, ?_⟩
  · unfold chainlinkDefault
    split
    · norm_num
    · split
      · norm_num
      · split <;> norm_num
  · intro opp use_flash_loan flash_bps slip_bps gas_gwei hta
    simp only [calculate_direct_arb_profit]
    rw [hta, hprice]

/-- C2 witness: WETH is priced through the "ETH" symbol; with every oracle
read failing the lookup returns the 2000 USD default and a concrete direct
evaluation prices the trade with it. -/
theorem C2_witness :
    get_token_price_usd envAllFail .WETH = chainlinkDefault "ETH" ∧
    (calculate_direct_arb_profit envAllFail
      ⟨.WETH, .USDC_LEGACY, 1, "quickswap", 2000, 2000, "sushiswap", 101/100, 101/100,
       1/100, 100⟩ true 5 30 none).trade_amount_usd = 1 * chainlinkDefault "ETH" := by
  have h := C2_thm envAllFail .WETH "ETH" rfl (fun _ => rfl)
  exact ⟨h.1, h.2.2 _ true 5 30 none rfl⟩

/-! ### C3: the profitability predicate and its failure reason -/

/-- The decision-and-reason pattern shared by both profit-model entry
points, stated over arbitrary net-profit figures. -/
theorem profit_flag_reason_spec (u : ℚ) (b : ℤ) :
    (((decide (u ≥ MIN_PROFIT_USD) && decide (b ≥ MIN_PROFIT_BPS)) = true) ↔
      (MIN_PROFIT_USD ≤ u ∧ MIN_PROFIT_BPS ≤ b)) ∧
    ((decide (u ≥ MIN_PROFIT_USD) && decide (b ≥ MIN_PROFIT_BPS)) = false →
      ((u < MIN_PROFIT_USD →
        (if (decide (u ≥ MIN_PROFIT_USD) && decide (b ≥ MIN_PROFIT_BPS)) = true then
          ProfitReason.empty
         else if u < MIN_PROFIT_USD then ProfitReason.belowMinUsd
         else if b < MIN_PROFIT_BPS then ProfitReason.belowMinBps
         else ProfitReason.empty) = ProfitReason.belowMinUsd) ∧
       (¬ u < MIN_PROFIT_USD →
        (if (decide (u ≥ MIN_PROFIT_USD) && decide (b ≥ MIN_PROFIT_BPS)) = true then
          ProfitReason.empty
         else if u < MIN_PROFIT_USD then ProfitReason.belowMinUsd
         else if b < MIN_PROFIT_BPS then ProfitReason.belowMinBps
         else ProfitReason.empty) = ProfitReason.belowMinBps))) := by
  constructor
  · simp [Bool.and_eq_true, decide_eq_true_iff, ge_iff_le]
  · intro hfalse
    constructor
    · intro husd
      simp [hfalse, husd]
    · intro husd
      have hu : decide (u ≥ MIN_PROFIT_USD) = true := by
        simp [ge_iff_le, not_lt.mp husd]
      have hb : decide (b ≥ MIN_PROFIT_BPS) = false := by
        rcases Bool.and_eq_false_iff.mp hfalse with h | h
        · exact absurd hu (by simp [h])
        · exact h
      have hblt : b < MIN_PROFIT_BPS := by
        have := of_decide_eq_false hb
        omega
      simp [hfalse, husd, hblt]

/-- C3: for every breakdown produced by either profit-model entry point,
`is_profitable` holds exactly when net profit clears both the USD and the
bps thresholds, and when it is false the reason names the USD threshold if
the USD test failed, otherwise the bps threshold. -/
theorem C3_thm (env : Env) (use_flash_loan : Bool) (flash_bps slip_bps : ℤ)
    (gas_gwei : Option ℚ) (opp : DirectArbOpportunity) (topp : TriangularArbOpportunity) :
    ((calculate_direct_arb_profit env opp use_flash_loan flash_bps slip_bps
        gas_gwei).is_profitable = true ↔
      MIN_PROFIT_USD ≤ (calculate_direct_arb_profit env opp use_flash_loan flash_bps slip_bps
        gas_gwei).net_profit_usd ∧
      MIN_PROFIT_BPS ≤ (calculate_direct_arb_profit env opp use_flash_loan flash_bps slip_bps
        gas_gwei).net_profit_bps) ∧
    ((calculate_direct_arb_profit env opp use_flash_loan flash_bps slip_bps
        gas_gwei).is_profitable = false →
      (((calculate_direct_arb_profit env opp use_flash_loan flash_bps slip_bps
          gas_gwei).net_profit_usd < MIN_PROFIT_USD →
        (calculate_direct_arb_profit env opp use_flash_loan flash_bps slip_bps
          gas_gwei).reason = .belowMinUsd) ∧
       (¬ (calculate_direct_arb_profit env opp use_flash_loan flash_bps slip_bps
          gas_gwei).net_profit_usd < MIN_PROFIT_USD →
        (calculate_direct_arb_profit env opp use_flash_loan flash_bps slip_bps
          gas_gwei).reason = .belowMinBps))) ∧
    ((calculate_triangular_arb_profit env topp use_flash_loan flash_bps slip_bps
        gas_gwei).is_profitable = true ↔
      MIN_PROFIT_USD ≤ (calculate_triangular_arb_profit env topp use_flash_loan flash_bps
        slip_bps gas_gwei).net_profit_usd ∧
      MIN_PROFIT_BPS ≤ (calculate_triangular_arb_profit env topp use_flash_loan flash_bps
        slip_bps gas_gwei).net_profit_bps) ∧
    ((calculate_triangular_arb_profit env topp use_flash_loan flash_bps slip_bps
        gas_gwei).is_profitable = false →
      (((calculate_triangular_arb_profit env topp use_flash_loan flash_bps slip_bps
          gas_gwei).net_profit_usd < MIN_PROFIT_USD →
        (calculate_triangular_arb_profit env topp use_flash_loan flash_bps slip_bps
          gas_gwei).reason = .belowMinUsd) ∧
       (¬ (calculate_triangular_arb_profit env topp use_flash_loan flash_bps slip_bps
          gas_gwei).net_profit_usd < MIN_PROFIT_USD →
        (calculate_triangular_arb_profit env topp use_flash_loan flash_bps slip_bps
          gas_gwei).reason = .belowMinBps))) := by
  have hd := profit_flag_reason_spec
    (calculate_direct_arb_profit env opp use_flash_loan flash_bps slip_bps gas_gwei).net_profit_usd
    (calculate_direct_arb_profit env opp use_flash_loan flash_bps slip_bps gas_gwei).net_profit_bps
  have ht := profit_flag_reason_spec
    (calculate_triangular_arb_profit env topp use_flash_loan flash_bps slip_bps
      gas_gwei).net_profit_usd
    (calculate_triangular_arb_profit env topp use_flash_loan flash_bps slip_bps
      gas_gwei).net_profit_bps
  have hdp : (calculate_direct_arb_profit env opp use_flash_loan flash_bps slip_bps
      gas_gwei).is_profitable =
      (decide ((calculate_direct_arb_profit env opp use_flash_loan flash_bps slip_bps
          gas_gwei).net_profit_usd ≥ MIN_PROFIT_USD) &&
       decide ((calculate_direct_arb_profit env opp use_flash_loan flash_bps slip_bps
          gas_gwei).net_profit_bps ≥ MIN_PROFIT_BPS)) := rfl
  have hdr : (calculate_direct_arb_profit env opp use_flash_loan flash_bps slip_bps
      gas_gwei).reason =
      (if (decide ((calculate_direct_arb_profit env opp use_flash_loan flash_bps slip_bps
            gas_gwei).net_profit_usd ≥ MIN_PROFIT_USD) &&
          decide ((calculate_direct_arb_profit env opp use_flash_loan flash_bps slip_bps
            gas_gwei).net_profit_bps ≥ MIN_PROFIT_BPS)) = true then ProfitReason.empty
       else if (calculate_direct_arb_profit env opp use_flash_loan flash_bps slip_bps
            gas_gwei).net_profit_usd < MIN_PROFIT_USD then ProfitReason.belowMinUsd
       else if (calculate_direct_arb_profit env opp use_flash_loan flash_bps slip_bps
            gas_gwei).net_profit_bps < MIN_PROFIT_BPS then ProfitReason.belowMinBps
       else ProfitReason.empty) := rfl
  have htp : (calculate_triangular_arb_profit env topp use_flash_loan flash_bps slip_bps
      gas_gwei).is_profitable =
      (decide ((calculate_triangular_arb_profit env topp use_flash_loan flash_bps slip_bps
          gas_gwei).net_profit_usd ≥ MIN_PROFIT_USD) &&
       decide ((calculate_triangular_arb_profit env topp use_flash_loan flash_bps slip_bps
          gas_gwei).net_profit_bps ≥ MIN_PROFIT_BPS)) := rfl
  have htr : (calculate_triangular_arb_profit env topp use_flash_loan flash_bps slip_bps
      gas_gwei).reason =
      (if (decide ((calculate_triangular_arb_profit env topp use_flash_loan flash_bps slip_bps
            gas_gwei).net_profit_usd ≥ MIN_PROFIT_USD) &&
          decide ((calculate_triangular_arb_profit env topp use_flash_loan flash_bps slip_bps
            gas_gwei).net_profit_bps ≥ MIN_PROFIT_BPS)) = true then ProfitReason.empty
       else if (calculate_triangular_arb_profit env topp use_flash_loan flash_bps slip_bps
            gas_gwei).net_profit_usd < MIN_PROFIT_USD then ProfitReason.belowMinUsd
       else if (calculate_triangular_arb_profit env topp use_flash_loan flash_bps slip_bps
            gas_gwei).net_profit_bps < MIN_PROFIT_BPS then ProfitReason.belowMinBps
       else ProfitReason.empty) := rfl
  rw [hdp, hdr, htp, htr]
  exact ⟨hd.1, hd.2, ht.1, ht.2⟩

/-- C3 witness: a concrete direct breakdown that misses the USD threshold is
not profitable and reports the USD reason. -/
theorem C3_witness :
    (calculate_direct_arb_profit envAllFail
      ⟨.WETH, .USDC_LEGACY, 1, "quickswap", 1, 1, "sushiswap", 1, 1, 0, 0⟩
      true 5 30 none).reason = ProfitReason.belowMinUsd := by
  have h := C3_thm envAllFail true 5 30 none
    ⟨.WETH, .USDC_LEGACY, 1, "quickswap", 1, 1, "sushiswap", 1, 1, 0, 0⟩
    ⟨.WETH, .USDC_LEGACY, .WMATIC, 1, "quickswap", 1, 1, "quickswap", 1, 1,
     "quickswap", 1, 1, 1, 0, 0⟩
  have hprice : get_token_price_usd envAllFail Token.WETH = 2000 := rfl
  have hmatic : get_chainlink_price envAllFail "MATIC" = 1 / 2 := rfl
  have hqk : DEXES.lookup "quickswap" = some ⟨30⟩ := rfl
  have hsu : DEXES.lookup "sushiswap" = some ⟨30⟩ := rfl
  have husd : (calculate_direct_arb_profit envAllFail
      ⟨.WETH, .USDC_LEGACY, 1, "quickswap", 1, 1, "sushiswap", 1, 1, 0, 0⟩
      true 5 30 none).net_profit_usd < MIN_PROFIT_USD := by
    have hgw : envAllFail.gasPriceWei = none := rfl
    simp only [calculate_direct_arb_profit, estimate_gas_cost, hgw, hprice, hmatic,
      hqk, hsu, GAS_LIMIT_FLASH_LOAN, MIN_PROFIT_USD]
    norm_num
  have hfalse : (calculate_direct_arb_profit envAllFail
      ⟨.WETH, .USDC_LEGACY, 1, "quickswap", 1, 1, "sushiswap", 1, 1, 0, 0⟩
      true 5 30 none).is_profitable = false := by
    cases hcase : (calculate_direct_arb_profit envAllFail
        ⟨.WETH, .USDC_LEGACY, 1, "quickswap", 1, 1, "sushiswap", 1, 1, 0, 0⟩
        true 5 30 none).is_profitable
    · rfl
    · exact absurd (h.1.mp hcase).1 (not_le.mpr husd)
  exact (h.2.1 hfalse).1 husd

/-! ### C10: unknown tokens are never marked profitable -/

/-- C10: when the opportunity's input token has no entry in the profit
model's symbol map, the USD price is 0, the breakdown prices the trade at
0 USD, the gas cost contributes nothing in token terms (total costs reduce
to flash-loan fee plus slippage), net USD profit is 0, and the opportunity
is not profitable. -/
theorem C10_thm (env : Env) (opp : DirectArbOpportunity) (use_flash_loan : Bool)
    (flash_bps slip_bps : ℤ) (gas_gwei : Option ℚ)
    (hmap : price_map opp.token_a = none) :
    get_token_price_usd env opp.token_a = 0 ∧
    (calculate_direct_arb_profit env opp use_flash_loan flash_bps slip_bps
      gas_gwei).trade_amount_usd = 0 ∧
    (calculate_direct_arb_profit env opp use_flash_loan flash_bps slip_bps
      gas_gwei).total_costs =
      (calculate_direct_arb_profit env opp use_flash_loan flash_bps slip_bps
        gas_gwei).flash_loan_fee +
      (calculate_direct_arb_profit env opp use_flash_loan flash_bps slip_bps
        gas_gwei).slippage_estimate ∧
    (calculate_direct_arb_profit env opp use_flash_loan flash_bps slip_bps
      gas_gwei).net_profit_usd = 0 ∧
    (calculate_direct_arb_profit env opp use_flash_loan flash_bps slip_bps
      gas_gwei).is_profitable = false := by
  have hprice : get_token_price_usd env opp.token_a = 0 := by
    unfold get_token_price_usd
    rw [hmap]
  refine ⟨hprice, ?_, ?_, ?_, ?_⟩
  · simp only [calculate_direct_arb_profit]
    rw [hprice, mul_zero]
  · simp only [calculate_direct_arb_profit]
    rw [hprice]
    norm_num
  · simp only [calculate_direct_arb_profit]
    rw [hprice, mul_zero]
  · simp only [calculate_direct_arb_profit]
    rw [hprice]
    norm_num [MIN_PROFIT_USD]

/-- C10 witness: QUICK has no symbol-map entry, so a concrete QUICK
opportunity is evaluated at zero USD and rejected. -/
theorem C10_witness :
    get_token_price_usd envAllFail Token.QUICK = 0 ∧
    (calculate_direct_arb_profit envAllFail
      ⟨.QUICK, .WMATIC, 1, "quickswap", 1, 1, "sushiswap", 2, 2, 1, 10000⟩
      true 5 30 none).net_profit_usd = 0 ∧
    (calculate_direct_arb_profit envAllFail
      ⟨.QUICK, .WMATIC, 1, "quickswap", 1, 1, "sushiswap", 2, 2, 1, 10000⟩
      true 5 30 none).is_profitable = false := by
  have h := C10_thm envAllFail
    ⟨.QUICK, .WMATIC, 1, "quickswap", 1, 1, "sushiswap", 2, 2, 1, 10000⟩
    true 5 30 none (by rfl)
  exact ⟨h.1, h.2.2.2.1, h.2.2.2.2⟩

/-! ### C6: monotonicity of the profit model in gas price and flash fee -/

/-- Strict monotonicity of the token-denominated gas cost in the gas price
when the gas units, the MATIC price and the trade token's price are all
positive. -/
theorem gasTok_mono (U M P g1 g2 : ℚ) (hU : 0 < U) (hM : 0 < M) (hP : 0 < P)
    (hg : g1 < g2) : U * g1 / 10 ^ 9 * M / P < U * g2 / 10 ^ 9 * M / P := by
  have hg' : (0:ℚ) < g2 - g1 := sub_pos.mpr hg
  have hd : (0:ℚ) < U * (g2 - g1) / 10 ^ 9 * M / P := by positivity
  have heq : U * g2 / 10 ^ 9 * M / P - U * g1 / 10 ^ 9 * M / P =
      U * (g2 - g1) / 10 ^ 9 * M / P := by ring
  linarith

/-- C6 (counterexample): the claim "strictly increasing the gas price
strictly decreases net profit, all else fixed" fails on the code: for an
opportunity whose input token has no USD price (QUICK prices at 0), the gas
cost in token terms is forced to 0 and the net profit is unchanged between
50 and 51 gwei. -/
theorem C6_counterexample :
    ¬ ((calculate_direct_arb_profit envAllFail
        ⟨.QUICK, .WMATIC, 1, "quickswap", 1, 1, "sushiswap", 2, 2, 1, 10000⟩
        true 5 30 (some 51)).net_profit <
       (calculate_direct_arb_profit envAllFail
        ⟨.QUICK, .WMATIC, 1, "quickswap", 1, 1, "sushiswap", 2, 2, 1, 10000⟩
        true 5 30 (some 50)).net_profit) := by
  intro h
  have heq : (calculate_direct_arb_profit envAllFail
      ⟨.QUICK, .WMATIC, 1, "quickswap", 1, 1, "sushiswap", 2, 2, 1, 10000⟩
      true 5 30 (some 51)).net_profit =
      (calculate_direct_arb_profit envAllFail
      ⟨.QUICK, .WMATIC, 1, "quickswap", 1, 1, "sushiswap", 2, 2, 1, 10000⟩
      true 5 30 (some 50)).net_profit := rfl
  rw [heq] at h
  exact lt_irrefl _ h

/-- C6 (amended): with the trade token's USD price and the MATIC USD price
positive, strictly increasing the gas price strictly decreases net profit;
with `use_flash_loan` and a positive trade amount, strictly increasing the
flash-loan fee bps strictly decreases net profit; without `use_flash_loan`
the flash-loan fee bps has no effect on net profit. -/
theorem C6_corrected_thm (env : Env) (opp : DirectArbOpportunity) (slip_bps : ℤ) :
    (∀ (use_flash_loan : Bool) (flash_bps : ℤ) (g1 g2 : ℚ),
      0 < get_token_price_usd env opp.token_a →
      0 < get_chainlink_price env "MATIC" →
      g1 < g2 →
      (calculate_direct_arb_profit env opp use_flash_loan flash_bps slip_bps
        (some g2)).net_profit <
      (calculate_direct_arb_profit env opp use_flash_loan flash_bps slip_bps
        (some g1)).net_profit) ∧
    (∀ (b1 b2 : ℤ) (gas_gwei : Option ℚ),
      0 < opp.amount_in → b1 < b2 →
      (calculate_direct_arb_profit env opp true b2 slip_bps gas_gwei).net_profit <
      (calculate_direct_arb_profit env opp true b1 slip_bps gas_gwei).net_profit) ∧
    (∀ (b1 b2 : ℤ) (gas_gwei : Option ℚ),
      (calculate_direct_arb_profit env opp false b1 slip_bps gas_gwei).net_profit =
      (calculate_direct_arb_profit env opp false b2 slip_bps gas_gwei).net_profit) := by
  refine ⟨?_, ?_, ?_⟩
  · intro use_flash_loan flash_bps g1 g2 hP hM hg
    have hkey := gasTok_mono
      ((if use_flash_loan = true then GAS_LIMIT_FLASH_LOAN else GAS_LIMIT_SWAP * 2 : ℕ) : ℚ)
      (get_chainlink_price env "MATIC") (get_token_price_usd env opp.token_a) g1 g2
      (by cases use_flash_loan <;> norm_num [GAS_LIMIT_FLASH_LOAN, GAS_LIMIT_SWAP])
      hM hP hg
    simp only [calculate_direct_arb_profit, estimate_gas_cost]
    rw [if_pos hP, if_pos hP]
    linarith
  · intro b1 b2 gas_gwei hA hb
    have hb' : (0:ℚ) < (b2 : ℚ) - (b1 : ℚ) := by
      have hcast : ((b1 : ℚ)) < ((b2 : ℚ)) := by exact_mod_cast hb
      linarith
    have hd : (0:ℚ) < opp.amount_in * ((b2 : ℚ) - (b1 : ℚ)) / 10000 := by positivity
    have heq : opp.amount_in * (b2 : ℚ) / 10000 - opp.amount_in * (b1 : ℚ) / 10000 =
        opp.amount_in * ((b2 : ℚ) - (b1 : ℚ)) / 10000 := by ring
    simp only [calculate_direct_arb_profit, estimate_gas_cost, if_true]
    linarith
  · intro b1 b2 gas_gwei
    rfl

/-- C6 witness: with every feed quoting a positive price, raising the gas
price from 50 to 51 gwei strictly lowers a concrete WETH opportunity's net
profit; raising the flash fee from 5 to 6 bps does the same with a flash
loan, and changes nothing without one. -/
theorem C6_witness :
    (calculate_direct_arb_profit ⟨fun _ => .ok 2 false, none⟩
      ⟨.WETH, .USDC_LEGACY, 1, "quickswap", 1, 1, "sushiswap", 2, 2, 1, 10000⟩
      true 5 30 (some 51)).net_profit <
    (calculate_direct_arb_profit ⟨fun _ => .ok 2 false, none⟩
      ⟨.WETH, .USDC_LEGACY, 1, "quickswap", 1, 1, "sushiswap", 2, 2, 1, 10000⟩
      true 5 30 (some 50)).net_profit ∧
    (calculate_direct_arb_profit ⟨fun _ => .ok 2 false, none⟩
      ⟨.WETH, .USDC_LEGACY, 1, "quickswap", 1, 1, "sushiswap", 2, 2, 1, 10000⟩
      true 6 30 (some 50)).net_profit <
    (calculate_direct_arb_profit ⟨fun _ => .ok 2 false, none⟩
      ⟨.WETH, .USDC_LEGACY, 1, "quickswap", 1, 1, "sushiswap", 2, 2, 1, 10000⟩
      true 5 30 (some 50)).net_profit ∧
    (calculate_direct_arb_profit ⟨fun _ => .ok 2 false, none⟩
      ⟨.WETH, .USDC_LEGACY, 1, "quickswap", 1, 1, "sushiswap", 2, 2, 1, 10000⟩
      false 5 30 (some 50)).net_profit =
    (calculate_direct_arb_profit ⟨fun _ => .ok 2 false, none⟩
      ⟨.WETH, .USDC_LEGACY, 1, "quickswap", 1, 1, "sushiswap", 2, 2, 1, 10000⟩
      false 6 30 (some 50)).net_profit := by
  have h := C6_corrected_thm ⟨fun _ => .ok 2 false, none⟩
    ⟨.WETH, .USDC_LEGACY, 1, "quickswap", 1, 1, "sushiswap", 2, 2, 1, 10000⟩ 30
  have hP : (0:ℚ) < get_token_price_usd ⟨fun _ => .ok 2 false, none⟩ Token.WETH := by
    have : get_token_price_usd ⟨fun _ => .ok 2 false, none⟩ Token.WETH = 2 := rfl
    rw [this]; norm_num
  have hM : (0:ℚ) < get_chainlink_price ⟨fun _ => .ok 2 false, none⟩ "MATIC" := by
    have : get_chainlink_price ⟨fun _ => .ok 2 false, none⟩ "MATIC" = 2 := rfl
    rw [this]; norm_num
  exact ⟨h.1 true 5 50 51 hP hM (by norm_num),
         h.2.1 5 6 (some 50) (by norm_num) (by norm_num),
         h.2.2 5 6 (some 50)⟩

/-! ### C8: aggregated spread is non-negative and symmetric -/

/-- Truncation towards zero preserves non-negativity. -/
theorem truncRat_nonneg (q : ℚ) (h : 0 ≤ q) : 0 ≤ truncRat q := by
  unfold truncRat
  rw [if_neg (not_lt.mpr h)]
  exact Int.floor_nonneg.mpr h

/-- Truncation towards zero commutes with negation. -/
theorem truncRat_neg (q : ℚ) : truncRat (-q) = -truncRat q := by
  unfold truncRat
  rcases lt_trichotomy q 0 with h | h | h
  · rw [if_neg (by linarith), if_pos h, neg_neg]
  · subst h
    norm_num
  · rw [if_pos (by linarith), if_neg (not_lt.mpr (le_of_lt h)), neg_neg]

/-- The spread formula is non-negative whenever the best price dominates the
worst price. -/
theorem spreadFormula_nonneg (b w : ℚ) (h : w ≤ b) : 0 ≤ spreadFormula b w := by
  simp only [spreadFormula]
  split
  · next hmid =>
      apply truncRat_nonneg
      have h1 : (0:ℚ) ≤ (b - w) / ((b + w) / 2) :=
        div_nonneg (by linarith) (le_of_lt hmid)
      positivity
  · exact le_refl 0

/-- Swapping best and worst in the spread formula flips the sign, hence
keeps the magnitude. -/
theorem spreadFormula_symm (b w : ℚ) :
    (spreadFormula w b).natAbs = (spreadFormula b w).natAbs := by
  simp only [spreadFormula]
  rw [show (w + b) / 2 = (b + w) / 2 by ring]
  split
  · next hmid =>
      rw [show (w - b) / ((b + w) / 2) * 10000 = -((b - w) / ((b + w) / 2) * 10000) by ring,
        truncRat_neg, Int.natAbs_neg]
  · rfl

/-- Unfolding step of the best-quote fold. -/
theorem maxByAmountOut_cons (q x : Quote) (l : List Quote) :
    maxByAmountOut q (x :: l) =
      maxByAmountOut (if x.amount_out > q.amount_out then x else q) l := rfl

/-- The best-quote fold returns an element of the candidates. -/
theorem maxByAmountOut_mem (q : Quote) (l : List Quote) : maxByAmountOut q l ∈ q :: l := by
  induction l generalizing q with
  | nil => simp [maxByAmountOut]
  | cons x xs ih =>
    rw [maxByAmountOut_cons]
    rcases List.mem_cons.mp (ih (if x.amount_out > q.amount_out then x else q)) with h1 | h1
    · rw [h1]
      split <;> simp
    · simp only [List.mem_cons]
      tauto

/-- The best-quote fold dominates every candidate's output. -/
theorem maxByAmountOut_ge (q : Quote) (l : List Quote) :
    ∀ x ∈ q :: l, x.amount_out ≤ (maxByAmountOut q l).amount_out := by
  induction l generalizing q with
  | nil =>
    intro x hx
    rw [List.mem_singleton.mp hx]
    exact le_refl _
  | cons y ys ih =>
    intro x hx
    rw [maxByAmountOut_cons]
    have hseed : (if y.amount_out > q.amount_out then y else q) ∈
        (if y.amount_out > q.amount_out then y else q) :: ys := List.mem_cons_self _ _
    have hq : q.amount_out ≤ (if y.amount_out > q.amount_out then y else q).amount_out := by
      split
      · next hgt => exact le_of_lt hgt
      · exact le_refl _
    have hy : y.amount_out ≤ (if y.amount_out > q.amount_out then y else q).amount_out := by
      split
      · exact le_refl _
      · next hgt => exact not_lt.mp hgt
    rcases List.mem_cons.mp hx with rfl | hx'
    · exact le_trans hq (ih _ _ hseed)
    · rcases List.mem_cons.mp hx' with rfl | hx''
      · exact le_trans hy (ih _ _ hseed)
      · exact ih _ x (List.mem_cons_of_mem _ hx'')

/-- Unfolding step of the worst-quote fold. -/
theorem minByAmountOut_cons (q x : Quote) (l : List Quote) :
    minByAmountOut q (x :: l) =
      minByAmountOut (if x.amount_out < q.amount_out then x else q) l := rfl

/-- The worst-quote fold returns an element of the candidates. -/
theorem minByAmountOut_mem (q : Quote) (l : List Quote) : minByAmountOut q l ∈ q :: l := by
  induction l generalizing q with
  | nil => simp [minByAmountOut]
  | cons x xs ih =>
    rw [minByAmountOut_cons]
    rcases List.mem_cons.mp (ih (if x.amount_out < q.amount_out then x else q)) with h1 | h1
    · rw [h1]
      split <;> simp
    · simp only [List.mem_cons]
      tauto

/-- The worst-quote fold is dominated by every candidate's output. -/
theorem minByAmountOut_le (q : Quote) (l : List Quote) :
    ∀ x ∈ q :: l, (minByAmountOut q l).amount_out ≤ x.amount_out := by
  induction l generalizing q with
  | nil =>
    intro x hx
    rw [List.mem_singleton.mp hx]
    exact le_refl _
  | cons y ys ih =>
    intro x hx
    rw [minByAmountOut_cons]
    have hseed : (if y.amount_out < q.amount_out then y else q) ∈
        (if y.amount_out < q.amount_out then y else q) :: ys := List.mem_cons_self _ _
    have hq : (if y.amount_out < q.amount_out then y else q).amount_out ≤ q.amount_out := by
      split
      · next hgt => exact le_of_lt hgt
      · exact le_refl _
    have hy : (if y.amount_out < q.amount_out then y else q).amount_out ≤ y.amount_out := by
      split
      · exact le_refl _
      · next hgt => exact not_lt.mp hgt
    rcases List.mem_cons.mp hx with rfl | hx'
    · exact le_trans (ih _ _ hseed) hq
    · rcases List.mem_cons.mp hx' with rfl | hx''
      · exact le_trans (ih _ _ hseed) hy
      · exact ih _ x (List.mem_cons_of_mem _ hx'')

/-- Every valid quote produced by `get_quote` carries the requested
`amount_in`, a non-negative `amount_out` (a `uint256` scaled down), and the
guarded unit price `amount_out / amount_in`. -/
theorem get_quote_shape (qenv : QuoteEnv) (d : String) (tin tout : Token) (amt : ℚ)
    (h : (get_quote qenv d tin tout amt).is_valid = true) :
    (get_quote qenv d tin tout amt).amount_in = amt ∧
    0 ≤ (get_quote qenv d tin tout amt).amount_out ∧
    (get_quote qenv d tin tout amt).price =
      (if 0 < amt then (get_quote qenv d tin tout amt).amount_out / amt else 0) := by
  simp only [get_quote] at h ⊢
  cases hl : DEXES.lookup d with
  | none => rw [hl] at h; cases h
  | some info =>
    rw [hl] at h
    cases hw : qenv d tin tout (truncRat (amt * 10 ^ get_decimals tin)) with
    | none => rw [hw] at h; cases h
    | some wei =>
      refine ⟨rfl, ?_, rfl⟩
      show (0:ℚ) ≤ (wei : ℚ) / 10 ^ get_decimals tout
      positivity

/-- The `quotes` field of an aggregation is exactly the filtered list of
valid per-venue quotes. -/
theorem aggregate_quotes_quotes (qenv : QuoteEnv) (tin tout : Token) (amt : ℚ)
    (L : List String) :
    (aggregate_quotes qenv tin tout amt L).quotes =
      L.dedup.filterMap (fun d =>
        if (get_quote qenv d tin tout amt).is_valid then
          some (d, get_quote qenv d tin tout amt) else none) := by
  simp only [aggregate_quotes]
  split <;> simp_all

/-- Every quote retained by an aggregation has the shape guaranteed by
`get_quote_shape`. -/
theorem aggregate_quotes_mem_shape (qenv : QuoteEnv) (tin tout : Token) (amt : ℚ)
    (L : List String) :
    ∀ p ∈ (aggregate_quotes qenv tin tout amt L).quotes,
      p.2.amount_in = amt ∧ 0 ≤ p.2.amount_out ∧
      p.2.price = (if 0 < amt then p.2.amount_out / amt else 0) := by
  intro p hp
  rw [aggregate_quotes_quotes] at hp
  rcases List.mem_filterMap.mp hp with ⟨d, _, hd⟩
  by_cases hv : (get_quote qenv d tin tout amt).is_valid = true
  · rw [if_pos hv] at hd
    cases hd
    exact get_quote_shape qenv d tin tout amt hv
  · rw [if_neg hv] at hd
    cases hd

/-- An aggregation is either empty (no valid quote: no best/worst, zero
spread) or carries a nonempty quote list with best/worst computed by the
max/min folds and the spread by the spread formula. -/
theorem aggregate_quotes_cases (qenv : QuoteEnv) (tin tout : Token) (amt : ℚ)
    (L : List String) :
    ((aggregate_quotes qenv tin tout amt L).quotes = [] ∧
     (aggregate_quotes qenv tin tout amt L).best_quote = none ∧
     (aggregate_quotes qenv tin tout amt L).worst_quote = none ∧
     (aggregate_quotes qenv tin tout amt L).spread_bps = 0) ∨
    (∃ d0 q0 rest,
      (aggregate_quotes qenv tin tout amt L).quotes = (d0, q0) :: rest ∧
      (aggregate_quotes qenv tin tout amt L).best_quote =
        some (maxByAmountOut q0 (rest.map Prod.snd)) ∧
      (aggregate_quotes qenv tin tout amt L).worst_quote =
        some (minByAmountOut q0 (rest.map Prod.snd)) ∧
      (aggregate_quotes qenv tin tout amt L).spread_bps =
        spreadFormula (maxByAmountOut q0 (rest.map Prod.snd)).price
          (minByAmountOut q0 (rest.map Prod.snd)).price) := by
  simp only [aggregate_quotes]
  split
  · exact Or.inl ⟨rfl, rfl, rfl, rfl⟩
  · next d0 q0 rest heq => exact Or.inr ⟨d0, q0, rest, rfl, rfl, rfl, rfl⟩

/-- C8: every aggregation's `spread_bps` is non-negative; when best and
worst quotes exist, best has maximal and worst minimal `amount_out` among
the retained quotes (all sharing the requested `amount_in`), the spread is
the spread formula at their prices, and swapping best and worst in the
formula preserves the magnitude. -/
theorem C8_thm (qenv : QuoteEnv) (tin tout : Token) (amt : ℚ) (L : List String) :
    0 ≤ (aggregate_quotes qenv tin tout amt L).spread_bps ∧
    ∀ bq wq, (aggregate_quotes qenv tin tout amt L).best_quote = some bq →
      (aggregate_quotes qenv tin tout amt L).worst_quote = some wq →
      (bq ∈ (aggregate_quotes qenv tin tout amt L).quotes.map Prod.snd ∧
       wq ∈ (aggregate_quotes qenv tin tout amt L).quotes.map Prod.snd ∧
       (∀ q ∈ (aggregate_quotes qenv tin tout amt L).quotes.map Prod.snd,
         q.amount_in = amt ∧ wq.amount_out ≤ q.amount_out ∧ q.amount_out ≤ bq.amount_out) ∧
       (aggregate_quotes qenv tin tout amt L).spread_bps = spreadFormula bq.price wq.price ∧
       (spreadFormula wq.price bq.price).natAbs = (spreadFormula bq.price wq.price).natAbs) := by
  have hshape : ∀ x ∈ (aggregate_quotes qenv tin tout amt L).quotes.map Prod.snd,
      x.amount_in = amt ∧ 0 ≤ x.amount_out ∧
      x.price = (if 0 < amt then x.amount_out / amt else 0) := by
    intro x hx
    rcases List.mem_map.mp hx with ⟨p, hp, rfl⟩
    exact aggregate_quotes_mem_shape qenv tin tout amt L p hp
  rcases aggregate_quotes_cases qenv tin tout amt L with
    ⟨hq, hb, hw, hs⟩ | ⟨d0, q0, rest, hq, hb, hw, hs⟩
  · refine ⟨by rw [hs], ?_⟩
    intro bq wq h1 _
    rw [hb] at h1
    cases h1
  · have hmap : (aggregate_quotes qenv tin tout amt L).quotes.map Prod.snd =
        q0 :: rest.map Prod.snd := by
      rw [hq]
      rfl
    have hBmem : maxByAmountOut q0 (rest.map Prod.snd) ∈
        (aggregate_quotes qenv tin tout amt L).quotes.map Prod.snd := by
      rw [hmap]
      exact maxByAmountOut_mem _ _
    have hWmem : minByAmountOut q0 (rest.map Prod.snd) ∈
        (aggregate_quotes qenv tin tout amt L).quotes.map Prod.snd := by
      rw [hmap]
      exact minByAmountOut_mem _ _
    have hge : ∀ x ∈ (aggregate_quotes qenv tin tout amt L).quotes.map Prod.snd,
        x.amount_out ≤ (maxByAmountOut q0 (rest.map Prod.snd)).amount_out := by
      intro x hx
      exact maxByAmountOut_ge q0 (rest.map Prod.snd) x (hmap ▸ hx)
    have hle : ∀ x ∈ (aggregate_quotes qenv tin tout amt L).quotes.map Prod.snd,
        (minByAmountOut q0 (rest.map Prod.snd)).amount_out ≤ x.amount_out := by
      intro x hx
      exact minByAmountOut_le q0 (rest.map Prod.snd) x (hmap ▸ hx)
    have hWB : (minByAmountOut q0 (rest.map Prod.snd)).price ≤
        (maxByAmountOut q0 (rest.map Prod.snd)).price := by
      rw [(hshape _ hBmem).2.2, (hshape _ hWmem).2.2]
      split
      · next hamt =>
          exact div_le_div_of_nonneg_right (hge _ hWmem) (le_of_lt hamt)
      · exact le_refl 0
    refine ⟨by rw [hs]; exact spreadFormula_nonneg _ _ hWB, ?_⟩
    intro bq wq h1 h2
    rw [hb] at h1
    rw [hw] at h2
    cases h1
    cases h2
    refine ⟨hBmem, hWmem, ?_, hs, spreadFormula_symm _ _⟩
    intro q hqm
    exact ⟨(hshape q hqm).1, hle q hqm, hge q hqm⟩

/-- A chain environment whose router calls all succeed with a fixed raw
output. -/
def qenvConst : QuoteEnv :=
  fun _ _ _ _ => some 1000000

/-- C8 witness: a concrete single-venue aggregation has a non-negative
spread equal to the spread formula at its best/worst prices, and the
swapped formula has the same magnitude. -/
theorem C8_witness :
    0 ≤ (aggregate_quotes qenvConst .WMATIC .USDT 1 ["quickswap"]).spread_bps ∧
    (aggregate_quotes qenvConst .WMATIC .USDT 1 ["quickswap"]).spread_bps =
      spreadFormula (get_quote qenvConst "quickswap" .WMATIC .USDT 1).price
        (get_quote qenvConst "quickswap" .WMATIC .USDT 1).price ∧
    (spreadFormula (get_quote qenvConst "quickswap" .WMATIC .USDT 1).price
        (get_quote qenvConst "quickswap" .WMATIC .USDT 1).price).natAbs =
      (spreadFormula (get_quote qenvConst "quickswap" .WMATIC .USDT 1).price
        (get_quote qenvConst "quickswap" .WMATIC .USDT 1).price).natAbs := by
  have h := C8_thm qenvConst .WMATIC .USDT 1 ["quickswap"]
  have h2 := h.2 (get_quote qenvConst "quickswap" .WMATIC .USDT 1)
    (get_quote qenvConst "quickswap" .WMATIC .USDT 1) rfl rfl
  exact ⟨h.1, h2.2.2.2.1, h2.2.2.2.2⟩

/-! ### C5/C7: scanner floor invariants and insufficient-data behaviour -/

/-- The direct-scan fold preserves the floor invariant: any recorded best
opportunity clears the bps floor and has positive gross profit. -/
theorem scanDirectFold_inv (qenv : QuoteEnv) (mp : ℤ) (a b : Token) (amt : ℚ)
    (combos : List ((String × Quote) × String)) :
    ∀ (st st' : ℚ × Option DirectArbOpportunity),
      (∀ o, st.2 = some o → mp ≤ o.gross_profit_bps ∧ 0 < o.gross_profit) →
      scanDirectFold qenv mp a b amt combos st = some st' →
      ∀ o, st'.2 = some o → mp ≤ o.gross_profit_bps ∧ 0 < o.gross_profit := by
  induction combos with
  | nil =>
    intro st st' hst hrun o ho
    cases hrun
    exact hst o ho
  | cons c rest ih =>
    obtain ⟨⟨buy_dex, buy_quote⟩, sell_dex⟩ := c
    intro st st' hst hrun
    simp only [scanDirectFold] at hrun
    split at hrun
    · exact ih st st' hst hrun
    · split at hrun
      · exact ih st st' hst hrun
      · split at hrun
        · exact ih st st' hst hrun
        · split at hrun
          · cases hrun
          · split at hrun
            · exact ih st st' hst hrun
            · split at hrun
              · next hgross hamt hbps hbest =>
                  refine ih _ st' ?_ hrun
                  intro o ho
                  cases ho
                  exact ⟨not_lt.mp hbps, not_le.mp hgross⟩
              · exact ih st st' hst hrun

/-- The triangular-scan fold preserves the cycle-gain invariant: any
recorded best opportunity's final amount strictly exceeds the input. -/
theorem scanTriFold_inv (qenv : QuoteEnv) (mp : ℤ) (a b c : Token) (amt : ℚ)
    (combos : List (String × String × String)) :
    ∀ (st st' : ℚ × Option TriangularArbOpportunity),
      (∀ o, st.2 = some o → o.amount_in < o.final_amount) →
      scanTriFold qenv mp a b c amt combos st = some st' →
      ∀ o, st'.2 = some o → o.amount_in < o.final_amount := by
  induction combos with
  | nil =>
    intro st st' hst hrun o ho
    cases hrun
    exact hst o ho
  | cons t rest ih =>
    obtain ⟨d1, d2, d3⟩ := t
    intro st st' hst hrun
    simp only [scanTriFold] at hrun
    split at hrun
    · exact ih st st' hst hrun
    · split at hrun
      · exact ih st st' hst hrun
      · split at hrun
        · exact ih st st' hst hrun
        · split at hrun
          · exact ih st st' hst hrun
          · split at hrun
            · cases hrun
            · split at hrun
              · exact ih st st' hst hrun
              · split at hrun
                · next hgross hamt hbps hbest =>
                    refine ih _ st' ?_ hrun
                    intro o ho
                    cases ho
                    show amt < (get_quote qenv d3 c a
                      (get_quote qenv d2 b c (get_quote qenv d1 a b amt).amount_out).amount_out).amount_out
                    have := not_le.mp hgross
                    linarith
                · exact ih st st' hst hrun

/-- C5: the direct scanner and its fast variant never return an opportunity
below the configured bps floor or without strictly positive gross profit,
and the triangular scanner never returns a cycle whose final amount fails to
exceed the input amount. -/
theorem C5_thm :
    (∀ (qenv : QuoteEnv) (mp : ℤ) (a b : Token) (amt : ℚ) (L : List String)
       (opp : DirectArbOpportunity),
       scan_direct_arbitrage qenv mp a b amt L = some (some opp) →
       mp ≤ opp.gross_profit_bps ∧ 0 < opp.gross_profit) ∧
    (∀ (qenv : QuoteEnv) (mp : ℤ) (a b : Token) (amt : ℚ)
       (opp : DirectArbOpportunity),
       scan_single_pair qenv mp a b amt = some (some opp) →
       mp ≤ opp.gross_profit_bps ∧ 0 < opp.gross_profit) ∧
    (∀ (qenv : QuoteEnv) (mp : ℤ) (a b c : Token) (amt : ℚ) (L : List String)
       (opp : TriangularArbOpportunity),
       scan_triangular_arbitrage qenv mp a b c amt L = some (some opp) →
       opp.amount_in < opp.final_amount) := by
  refine ⟨?_, ?_, ?_⟩
  · intro qenv mp a b amt L opp h
    simp only [scan_direct_arbitrage] at h
    split at h
    · simp at h
    · rcases Option.map_eq_some'.mp h with ⟨st', hrun, hsnd⟩
      exact scanDirectFold_inv qenv mp a b amt _ (0, none) st'
        (by intro o ho; cases ho) hrun opp hsnd
  · intro qenv mp a b amt opp h
    simp only [scan_single_pair] at h
    split at h
    · split at h
      · simp at h
      · split at h
        · simp at h
        · split at h
          · simp at h
          · split at h
            · cases h
            · split at h
              · simp at h
              · next hgross hamt hbps =>
                  simp only [Option.some.injEq] at h
                  subst h
                  exact ⟨not_lt.mp hbps, not_le.mp hgross⟩
    · simp at h
  · intro qenv mp a b c amt L opp h
    simp only [scan_triangular_arbitrage] at h
    rcases Option.map_eq_some'.mp h with ⟨st', hrun, hsnd⟩
    exact scanTriFold_inv qenv mp a b c amt _ (0, none) st'
      (by intro o ho; cases ho) hrun opp hsnd

/-- A triangular fold in which every enumerated venue combination has a leg
that is invalid or non-positive leaves the running state untouched. -/
theorem scanTriFold_skip_all (qenv : QuoteEnv) (mp : ℤ) (a b c : Token) (amt : ℚ)
    (combos : List (String × String × String)) :
    (∀ d1 d2 d3, (d1, d2, d3) ∈ combos →
      ¬ ((get_quote qenv d1 a b amt).is_valid = true ∧
         0 < (get_quote qenv d1 a b amt).amount_out ∧
         (get_quote qenv d2 b c (get_quote qenv d1 a b amt).amount_out).is_valid = true ∧
         0 < (get_quote qenv d2 b c (get_quote qenv d1 a b amt).amount_out).amount_out ∧
         (get_quote qenv d3 c a (get_quote qenv d2 b c
            (get_quote qenv d1 a b amt).amount_out).amount_out).is_valid = true ∧
         0 < (get_quote qenv d3 c a (get_quote qenv d2 b c
            (get_quote qenv d1 a b amt).amount_out).amount_out).amount_out)) →
    ∀ st, scanTriFold qenv mp a b c amt combos st = some st := by
  induction combos with
  | nil => intro _ st; rfl
  | cons t rest ih =>
    obtain ⟨d1, d2, d3⟩ := t
    intro hall st
    have htail : ∀ e1 e2 e3, (e1, e2, e3) ∈ rest → _ :=
      fun e1 e2 e3 hm => hall e1 e2 e3 (List.mem_cons_of_mem _ hm)
    have hfail := hall d1 d2 d3 (List.mem_cons_self _ _)
    simp only [scanTriFold]
    split
    · exact ih htail st
    · next h1 =>
      split
      · exact ih htail st
      · next h2 =>
        split
        · exact ih htail st
        · next h3 =>
          exfalso
          push_neg at h1 h2 h3
          exact hfail ⟨h1.1, h1.2, h2.1, h2.2, h3.1, h3.2⟩

/-- C7: with fewer than two valid venues the direct scan returns "no
opportunity" rather than raising; a triangular route all of whose venue
combinations lose a leg returns "no opportunity"; and a pair (respectively
route) that yields no opportunity (or whose scan raises) contributes nothing
to the direct (respectively triangular) batch scan, which continues with the
remaining pairs (respectively routes). -/
theorem C7_thm :
    (∀ (qenv : QuoteEnv) (mp : ℤ) (a b : Token) (amt : ℚ) (L : List String),
      (aggregate_quotes qenv a b amt L).quotes.length < 2 →
      scan_direct_arbitrage qenv mp a b amt L = some none) ∧
    (∀ (qenv : QuoteEnv) (mp : ℤ) (a b c : Token) (amt : ℚ) (L : List String),
      (∀ d1 d2 d3, (d1, d2, d3) ∈ triCombos L →
        ¬ ((get_quote qenv d1 a b amt).is_valid = true ∧
           0 < (get_quote qenv d1 a b amt).amount_out ∧
           (get_quote qenv d2 b c (get_quote qenv d1 a b amt).amount_out).is_valid = true ∧
           0 < (get_quote qenv d2 b c (get_quote qenv d1 a b amt).amount_out).amount_out ∧
           (get_quote qenv d3 c a (get_quote qenv d2 b c
              (get_quote qenv d1 a b amt).amount_out).amount_out).is_valid = true ∧
           0 < (get_quote qenv d3 c a (get_quote qenv d2 b c
              (get_quote qenv d1 a b amt).amount_out).amount_out).amount_out)) →
      scan_triangular_arbitrage qenv mp a b c amt L = some none) ∧
    (∀ (qenv : QuoteEnv) (mp : ℤ) (amt : ℚ) (p : Token × Token)
       (rest : List (Token × Token)),
      (scan_direct_arbitrage qenv mp p.1 p.2 amt DEXES_keys = none ∨
       scan_direct_arbitrage qenv mp p.1 p.2 amt DEXES_keys = some none) →
      scan_all_pairs qenv mp amt (p :: rest) = scan_all_pairs qenv mp amt rest) ∧
    (∀ (qenv : QuoteEnv) (mp : ℤ) (amt : ℚ) (r : Token × Token × Token)
       (rest : List (Token × Token × Token)),
      (scan_triangular_arbitrage qenv mp r.1 r.2.1 r.2.2 amt DEXES_keys = none ∨
       scan_triangular_arbitrage qenv mp r.1 r.2.1 r.2.2 amt DEXES_keys = some none) →
      scan_all_triangular qenv mp amt (r :: rest) =
        scan_all_triangular qenv mp amt rest) := by
  refine ⟨?_, ?_, ?_, ?_⟩
  · intro qenv mp a b amt L hlen
    simp only [scan_direct_arbitrage]
    rw [if_pos hlen]
  · intro qenv mp a b c amt L hall
    simp only [scan_triangular_arbitrage]
    rw [scanTriFold_skip_all qenv mp a b c amt (triCombos L) hall (0, none)]
    rfl
  · intro qenv mp amt p rest hnone
    simp only [scan_all_pairs, List.filterMap_cons]
    rcases hnone with h | h <;> rw [h]
  · intro qenv mp amt r rest hnone
    simp only [scan_all_triangular, List.filterMap_cons]
    rcases hnone with h | h <;> rw [h]

/-- A chain environment in which every router call raises. -/
def qenvFail : QuoteEnv := fun _ _ _ _ => none

/-- C7 witness: with every router call failing, a direct scan returns "no
opportunity" (zero valid venues), a triangular route returns "no
opportunity", and each batch scan over one pair (or one route) equals the
batch scan over none. -/
theorem C7_witness :
    scan_direct_arbitrage qenvFail 10 .WMATIC .USDT 1 ["quickswap"] = some none ∧
    scan_triangular_arbitrage qenvFail 10 .WMATIC .USDT .WETH 1 ["quickswap"] = some none ∧
    scan_all_pairs qenvFail 10 1 [(.WMATIC, .USDT)] = scan_all_pairs qenvFail 10 1 [] ∧
    scan_all_triangular qenvFail 10 1 [(.WMATIC, .USDT, .WETH)] =
      scan_all_triangular qenvFail 10 1 [] := by
  have h := C7_thm
  have hleg : ∀ (d1 : String) (a b : Token) (amt : ℚ),
      (get_quote qenvFail d1 a b amt).is_valid = false := by
    intro d1 a b amt
    simp only [get_quote]
    cases DEXES.lookup d1 <;> rfl
  have htriall : scan_triangular_arbitrage qenvFail 10 .WMATIC .USDT .WETH 1 DEXES_keys =
      some none := by
    apply h.2.1
    intro d1 d2 d3 _ hc
    rw [hleg d1 .WMATIC .USDT 1] at hc
    exact Bool.false_ne_true hc.1
  refine ⟨h.1 qenvFail 10 .WMATIC .USDT 1 ["quickswap"] (by decide),
          h.2.1 qenvFail 10 .WMATIC .USDT .WETH 1 ["quickswap"] ?_,
          h.2.2.1 qenvFail 10 1 (.WMATIC, .USDT) [] (Or.inr (h.1 qenvFail 10 .WMATIC .USDT 1
            DEXES_keys (by decide))),
          h.2.2.2 qenvFail 10 1 (.WMATIC, .USDT, .WETH) [] (Or.inr htriall)⟩
  intro d1 d2 d3 hm
  rw [show triCombos ["quickswap"] = [("quickswap", "quickswap", "quickswap")] from rfl] at hm
  have heq := List.mem_singleton.mp hm
  rw [Prod.mk.injEq, Prod.mk.injEq] at heq
  obtain ⟨h1, h2, h3⟩ := heq
  subst h1
  subst h2
  subst h3
  intro hc
  exact absurd hc.1 (by decide)

/-- A chain environment where only quickswap answers, always returning a raw
output of 2·10¹⁸. -/
def qenvTri : QuoteEnv := fun d _ _ _ =>
  if d = "quickswap" then some 2000000000000000000 else none

theorem scanTri_eval :
    scan_triangular_arbitrage qenvTri 10 .WMATIC .WETH .DAI 1 ["quickswap"] =
      some (some ⟨.WMATIC, .WETH, .DAI, 1, "quickswap", 2, 2, "quickswap", 2, 1,
        "quickswap", 2, 1, 2, 1, 10000⟩) := by
  have hlook : DEXES.lookup "quickswap" = some ⟨30⟩ := rfl
  have henv : ∀ tin tout w, qenvTri "quickswap" tin tout w = some 2000000000000000000 :=
    fun _ _ _ => rfl
  have ht1 : get_quote qenvTri "quickswap" .WMATIC .WETH 1 =
      ⟨"quickswap", .WMATIC, .WETH, 1, 2, 2, 30, true⟩ := by
    simp only [get_quote, hlook, henv, get_decimals, Quote.mk.injEq]
    norm_num
  have ht2 : get_quote qenvTri "quickswap" .WETH .DAI 2 =
      ⟨"quickswap", .WETH, .DAI, 2, 2, 1, 30, true⟩ := by
    simp only [get_quote, hlook, henv, get_decimals, Quote.mk.injEq]
    norm_num
  have ht3 : get_quote qenvTri "quickswap" .DAI .WMATIC 2 =
      ⟨"quickswap", .DAI, .WMATIC, 2, 2, 1, 30, true⟩ := by
    simp only [get_quote, hlook, henv, get_decimals, Quote.mk.injEq]
    norm_num
  have hcombos : triCombos ["quickswap"] = [("quickswap", "quickswap", "quickswap")] := rfl
  norm_num [scan_triangular_arbitrage, hcombos, scanTriFold, ht1, ht2, ht3, truncRat,
    TriangularArbOpportunity.mk.injEq]

/-- A chain environment where only sushiswap answers: 10¹⁸ raw out of WMATIC
and 2·10¹⁸ raw otherwise. -/
def qenvFast : QuoteEnv := fun d tin _ _ =>
  if d = "sushiswap" then
    (if tin = Token.WMATIC then some 1000000000000000000 else some 2000000000000000000)
  else none

theorem scanFast_eval :
    scan_single_pair qenvFast 0 .WMATIC .WETH 1 =
      some (some ⟨.WMATIC, .WETH, 1, "sushiswap", 1, 1, "sushiswap", 2, 2, 1, 10000⟩) := by
  have hlook : DEXES.lookup "sushiswap" = some ⟨30⟩ := rfl
  have henv1 : ∀ w, qenvFast "sushiswap" .WMATIC .WETH w = some 1000000000000000000 :=
    fun _ => rfl
  have henv2 : ∀ w, qenvFast "sushiswap" .WETH .WMATIC w = some 2000000000000000000 :=
    fun _ => rfl
  have hq : get_quote qenvFast "sushiswap" .WMATIC .WETH 1 =
      ⟨"sushiswap", .WMATIC, .WETH, 1, 1, 1, 30, true⟩ := by
    simp only [get_quote, hlook, henv1, get_decimals, Quote.mk.injEq]
    norm_num
  have hsell : get_quote qenvFast "sushiswap" .WETH .WMATIC 1 =
      ⟨"sushiswap", .WETH, .WMATIC, 1, 2, 2, 30, true⟩ := by
    simp only [get_quote, hlook, henv2, get_decimals, Quote.mk.injEq]
    norm_num
  have hv1 : (get_quote qenvFast "quickswap" .WMATIC .WETH 1).is_valid = false := by decide
  have hv3 : (get_quote qenvFast "apeswap" .WMATIC .WETH 1).is_valid = false := by decide
  have hv4 : (get_quote qenvFast "dfyn" .WMATIC .WETH 1).is_valid = false := by decide
  have hv5 : (get_quote qenvFast "meshswap" .WMATIC .WETH 1).is_valid = false := by decide
  have hdd : (["quickswap", "sushiswap", "apeswap", "dfyn", "meshswap"] :
      List String).dedup = ["quickswap", "sushiswap", "apeswap", "dfyn", "meshswap"] := by
    decide
  have hagg : aggregate_quotes qenvFast .WMATIC .WETH 1 DEXES_keys =
      ⟨.WMATIC, .WETH, 1,
       [("sushiswap", ⟨"sushiswap", .WMATIC, .WETH, 1, 1, 1, 30, true⟩)],
       some ⟨"sushiswap", .WMATIC, .WETH, 1, 1, 1, 30, true⟩,
       some ⟨"sushiswap", .WMATIC, .WETH, 1, 1, 1, 30, true⟩, 0⟩ := by
    norm_num [aggregate_quotes, hdd, DEXES_keys, DEXES, List.filterMap_cons, hq, hv1, hv3,
      hv4, hv5, maxByAmountOut, minByAmountOut, spreadFormula, truncRat,
      AggregatedQuotes.mk.injEq]
  norm_num [scan_single_pair, hagg, hsell, truncRat, DirectArbOpportunity.mk.injEq]

/-- A chain environment for the direct scan: both quickswap and sushiswap
quote the forward leg, only sushiswap quotes the reverse leg. -/
def qenvDirect : QuoteEnv := fun d tin _ _ =>
  if tin = Token.WMATIC then
    (if d = "quickswap" ∨ d = "sushiswap" then some 1000000000000000000 else none)
  else
    (if d = "sushiswap" then some 2000000000000000000 else none)

theorem scanDirect_eval :
    scan_direct_arbitrage qenvDirect 10 .WMATIC .WETH 1 ["quickswap", "sushiswap"] =
      some (some ⟨.WMATIC, .WETH, 1, "quickswap", 1, 1, "sushiswap", 2, 2, 1, 10000⟩) := by
  have hlq : DEXES.lookup "quickswap" = some ⟨30⟩ := rfl
  have hls : DEXES.lookup "sushiswap" = some ⟨30⟩ := rfl
  have henv1 : ∀ w, qenvDirect "quickswap" .WMATIC .WETH w = some 1000000000000000000 :=
    fun _ => rfl
  have henv2 : ∀ w, qenvDirect "sushiswap" .WMATIC .WETH w = some 1000000000000000000 :=
    fun _ => rfl
  have henv3 : ∀ w, qenvDirect "sushiswap" .WETH .WMATIC w = some 2000000000000000000 :=
    fun _ => rfl
  have hfq : get_quote qenvDirect "quickswap" .WMATIC .WETH 1 =
      ⟨"quickswap", .WMATIC, .WETH, 1, 1, 1, 30, true⟩ := by
    simp only [get_quote, hlq, henv1, get_decimals, Quote.mk.injEq]
    norm_num
  have hfs : get_quote qenvDirect "sushiswap" .WMATIC .WETH 1 =
      ⟨"sushiswap", .WMATIC, .WETH, 1, 1, 1, 30, true⟩ := by
    simp only [get_quote, hls, henv2, get_decimals, Quote.mk.injEq]
    norm_num
  have hrs : get_quote qenvDirect "sushiswap" .WETH .WMATIC 1 =
      ⟨"sushiswap", .WETH, .WMATIC, 1, 2, 2, 30, true⟩ := by
    simp only [get_quote, hls, henv3, get_decimals, Quote.mk.injEq]
    norm_num
  have hrq : (get_quote qenvDirect "quickswap" .WETH .WMATIC 1).is_valid = false := by decide
  have hddl : (["quickswap", "sushiswap"] : List String).dedup =
      ["quickswap", "sushiswap"] := by decide
  have haggq : (aggregate_quotes qenvDirect .WMATIC .WETH 1
      ["quickswap", "sushiswap"]).quotes =
      [("quickswap", ⟨"quickswap", .WMATIC, .WETH, 1, 1, 1, 30, true⟩),
       ("sushiswap", ⟨"sushiswap", .WMATIC, .WETH, 1, 1, 1, 30, true⟩)] := by
    rw [aggregate_quotes_quotes, hddl]
    norm_num [List.filterMap_cons, hfq, hfs]
  have hcombos : directCombos
      [("quickswap", (⟨"quickswap", .WMATIC, .WETH, 1, 1, 1, 30, true⟩ : Quote)),
       ("sushiswap", ⟨"sushiswap", .WMATIC, .WETH, 1, 1, 1, 30, true⟩)] =
      [(("quickswap", ⟨"quickswap", .WMATIC, .WETH, 1, 1, 1, 30, true⟩), "sushiswap"),
       (("sushiswap", ⟨"sushiswap", .WMATIC, .WETH, 1, 1, 1, 30, true⟩), "quickswap")] := by
    decide
  simp only [scan_direct_arbitrage, haggq, hcombos]
  norm_num [scanDirectFold, hrs, hrq, truncRat, DirectArbOpportunity.mk.injEq]

/-- C5 witness: concrete environments in which each scanner returns an
opportunity, whose floor and gain properties then follow from the theorem. -/
theorem C5_witness :
    ((10:ℤ) ≤ (10000:ℤ) ∧ (0:ℚ) < 1) ∧ ((0:ℤ) ≤ (10000:ℤ) ∧ (0:ℚ) < 1) ∧ (1:ℚ) < 2 := by
  refine ⟨?_, ?_, ?_⟩
  · exact C5_thm.1 qenvDirect 10 .WMATIC .WETH 1 ["quickswap", "sushiswap"]
      ⟨.WMATIC, .WETH, 1, "quickswap", 1, 1, "sushiswap", 2, 2, 1, 10000⟩ scanDirect_eval
  · exact C5_thm.2.1 qenvFast 0 .WMATIC .WETH 1
      ⟨.WMATIC, .WETH, 1, "sushiswap", 1, 1, "sushiswap", 2, 2, 1, 10000⟩ scanFast_eval
  · exact C5_thm.2.2 qenvTri 10 .WMATIC .WETH .DAI 1 ["quickswap"]
      ⟨.WMATIC, .WETH, .DAI, 1, "quickswap", 2, 2, "quickswap", 2, 1,
       "quickswap", 2, 1, 2, 1, 10000⟩ scanTri_eval

/-! ### C9: empty dex_prices makes evaluate_trade raise -/

/-- C9: when the pair passes (or skips) the whitelist but `dex_prices` is
empty, `evaluate_trade` raises (the median of an empty sequence) before any
later guard runs, instead of returning a rejection Decision; at least one
DEX price is therefore necessary for the call to be total. -/
theorem C9_thm (env : Env) (base_token quote_token : Token) (trade_size reserve_in : ℚ)
    (skip_whitelist : Bool)
    (h : skip_whitelist = true ∨ (base_token, quote_token) ∈ SAFE_PAIRS) :
    evaluate_trade env base_token quote_token trade_size [] reserve_in skip_whitelist =
      (none, [.whitelist]) := by
  simp only [evaluate_trade]
  rw [if_neg]
  · rfl
  · rintro ⟨h1, h2⟩
    rcases h with h | h
    · exact h1 h
    · exact h2 h

/-- C9 witness: a concrete whitelisted call with no DEX prices raises. -/
theorem C9_witness :
    evaluate_trade envAllFail .WMATIC .USDT 1 [] 5 false = (none, [GuardId.whitelist]) :=
  C9_thm envAllFail .WMATIC .USDT 1 5 false (Or.inr (by decide))

/-! ### C4: guard-chain ordering and short-circuiting -/

/-- C4 (counterexample): the claim "a non-whitelisted pair is rejected at
stage 1" is false as stated: with `skip_whitelist = True` the non-whitelisted
pair QUICK/WETH proceeds past stage 1 and is rejected by the liquidity
guard at stage 3. -/
theorem C4_counterexample :
    (Token.QUICK, Token.WETH) ∉ SAFE_PAIRS ∧
    evaluate_trade envAllFail .QUICK .WETH 500 [("quickswap", 1)] 0 true =
      (some ⟨false, .liquidityGuardFailed .zeroLiquidity⟩,
       [.whitelist, .oracle, .liquidity]) := by
  constructor
  · decide
  · have hmed : medianOpt [(1:ℚ)] = some 1 := rfl
    have horacle : (oracle_price_guard envAllFail .QUICK .WETH 1 5).ok = true := rfl
    have hliq : liquidity_guard 0 500 1 =
        ⟨false, 0, 500, 100, .zeroLiquidity⟩ := by
      simp only [liquidity_guard]
      rw [if_pos (le_refl (0:ℚ))]
    simp [evaluate_trade, hmed, horacle, hliq]

/-- C4 (amended): the five guards run in the order whitelist, oracle,
liquidity, DEX consistency, profit; when the whitelist is not skipped a
non-whitelisted pair is rejected at stage 1 with no later guard evaluated;
after the whitelist, the first failing guard rejects with its own reason and
the trace stops at it; and a decision with `allowed = true` requires every
guard to have passed. -/
theorem C4_corrected_thm (env : Env) (base_token quote_token : Token) (trade_size : ℚ)
    (dex_prices : List (String × ℚ)) (reserve_in : ℚ) (skip_whitelist : Bool) :
    (skip_whitelist = false → (base_token, quote_token) ∉ SAFE_PAIRS →
      evaluate_trade env base_token quote_token trade_size dex_prices reserve_in
        skip_whitelist = (some ⟨false, .notWhitelisted⟩, [.whitelist])) ∧
    ((skip_whitelist = true ∨ (base_token, quote_token) ∈ SAFE_PAIRS) →
      ∀ rp, medianOpt (dex_prices.map Prod.snd) = some rp →
      (((oracle_price_guard env base_token quote_token rp 5).ok = false →
        evaluate_trade env base_token quote_token trade_size dex_prices reserve_in
          skip_whitelist = (some ⟨false, .oracleGuardFailed
            (oracle_price_guard env base_token quote_token rp 5).reason⟩,
          [.whitelist, .oracle])) ∧
       ((oracle_price_guard env base_token quote_token rp 5).ok = true →
        (((liquidity_guard reserve_in trade_size 1).ok = false →
          evaluate_trade env base_token quote_token trade_size dex_prices reserve_in
            skip_whitelist = (some ⟨false, .liquidityGuardFailed
              (liquidity_guard reserve_in trade_size 1).reason⟩,
            [.whitelist, .oracle, .liquidity])) ∧
         ((liquidity_guard reserve_in trade_size 1).ok = true →
          ∀ dc, dex_consistency_guard (dex_prices.map Prod.snd) 3 = some dc →
          ((dc.ok = false →
            evaluate_trade env base_token quote_token trade_size dex_prices reserve_in
              skip_whitelist = (some ⟨false, .dexConsistencyFailed dc.reason⟩,
              [.whitelist, .oracle, .liquidity, .dexConsistency])) ∧
           (dc.ok = true →
            ∀ pr, profit_guard trade_size (listMin (dex_prices.map Prod.snd))
                (listMax (dex_prices.map Prod.snd))
                (estimate_gas_cost_usd (decisionGasGwei env) (1 / 2) false)
                (3 / 10) (5 / 100) (1 / 10) = some pr →
            ((pr.ok = false →
              evaluate_trade env base_token quote_token trade_size dex_prices reserve_in
                skip_whitelist = (some ⟨false, .profitGuardFailed pr.reason⟩,
                [.whitelist, .oracle, .liquidity, .dexConsistency, .profit])) ∧
             (pr.ok = true →
              evaluate_trade env base_token quote_token trade_size dex_prices reserve_in
                skip_whitelist = (some ⟨true, .allPassed⟩,
                [.whitelist, .oracle, .liquidity, .dexConsistency, .profit])))))))))) ∧
    (∀ d, (evaluate_trade env base_token quote_token trade_size dex_prices reserve_in
        skip_whitelist).1 = some d → d.allowed = true →
      ((skip_whitelist = true ∨ (base_token, quote_token) ∈ SAFE_PAIRS) ∧
       (∃ rp, medianOpt (dex_prices.map Prod.snd) = some rp ∧
         (oracle_price_guard env base_token quote_token rp 5).ok = true) ∧
       (liquidity_guard reserve_in trade_size 1).ok = true ∧
       (∃ dc, dex_consistency_guard (dex_prices.map Prod.snd) 3 = some dc ∧
         dc.ok = true) ∧
       (∃ pr, profit_guard trade_size (listMin (dex_prices.map Prod.snd))
           (listMax (dex_prices.map Prod.snd))
           (estimate_gas_cost_usd (decisionGasGwei env) (1 / 2) false)
           (3 / 10) (5 / 100) (1 / 10) = some pr ∧ pr.ok = true))) := by
  refine ⟨?_, ?_, ?_⟩
  · intro hskip hmem
    have hcond : ¬ skip_whitelist = true ∧ (base_token, quote_token) ∉ SAFE_PAIRS :=
      ⟨by simp [hskip], hmem⟩
    simp only [evaluate_trade]
    rw [if_pos hcond]
  · intro hwl rp hmed
    have hcond : ¬ (¬ skip_whitelist = true ∧ (base_token, quote_token) ∉ SAFE_PAIRS) := by
      rintro ⟨h1, h2⟩
      rcases hwl with h | h
      · exact h1 h
      · exact h2 h
    have himp : skip_whitelist = false → (base_token, quote_token) ∈ SAFE_PAIRS := by
      intro hf
      rcases hwl with h | h
      · rw [hf] at h; cases h
      · exact h
    refine ⟨?_, ?_⟩
    · intro hok
      simp [evaluate_trade, hcond, hmed, hok]
      exact himp
    · intro hok
      refine ⟨?_, ?_⟩
      · intro hlf
        simp [evaluate_trade, hcond, hmed, hok, hlf]
        exact himp
      · intro hlok dc hdc
        refine ⟨?_, ?_⟩
        · intro hdf
          simp [evaluate_trade, hcond, hmed, hok, hlok, hdc, hdf]
          exact himp
        · intro hdok pr hpr
          have hpr' := hpr
          simp only [one_div] at hpr'
          refine ⟨?_, ?_⟩
          · intro hpf
            simp [evaluate_trade, hcond, hmed, hok, hlok, hdc, hdok, hpr, hpr', hpf]
            exact himp
          · intro hpok
            simp [evaluate_trade, hcond, hmed, hok, hlok, hdc, hdok, hpr, hpr', hpok]
            exact himp
  · intro d hd hallowed
    simp only [evaluate_trade] at hd
    by_cases hcond : (¬ skip_whitelist = true ∧ (base_token, quote_token) ∉ SAFE_PAIRS)
    · rw [if_pos hcond] at hd
      simp only [Option.some.injEq] at hd
      subst hd
      cases hallowed
    · rw [if_neg hcond] at hd
      have hwl : skip_whitelist = true ∨ (base_token, quote_token) ∈ SAFE_PAIRS := by
        by_contra hcon
        push_neg at hcon
        exact hcond ⟨by simp [hcon.1], hcon.2⟩
      split at hd
      · cases hd
      · next rp hmed =>
        split at hd
        · simp only [Option.some.injEq] at hd
          subst hd
          cases hallowed
        · next hook =>
          split at hd
          · simp only [Option.some.injEq] at hd
            subst hd
            cases hallowed
          · next hlok =>
            split at hd
            · cases hd
            · next dc hdc =>
              split at hd
              · simp only [Option.some.injEq] at hd
                subst hd
                cases hallowed
              · next hdok =>
                split at hd
                · cases hd
                · next pr hpr =>
                  split at hd
                  · simp only [Option.some.injEq] at hd
                    subst hd
                    cases hallowed
                  · next hpok =>
                    exact ⟨hwl, ⟨rp, hmed, not_not.mp hook⟩, not_not.mp hlok,
                      ⟨dc, hdc, not_not.mp hdok⟩, ⟨pr, hpr, not_not.mp hpok⟩⟩

/-- C4 witness: a concrete non-whitelisted pair with the whitelist active is
rejected at stage 1 with only the whitelist stage evaluated. -/
theorem C4_witness :
    evaluate_trade envAllFail .QUICK .WETH 500 [("quickswap", 1)] 0 false =
      (some ⟨false, .notWhitelisted⟩, [GuardId.whitelist]) :=
  (C4_corrected_thm envAllFail .QUICK .WETH 500 [("quickswap", 1)] 0 false).1
    rfl (by decide)

end TradeBot
